import Mathlib

/-!
Verification of the osiris duel-engine core against its specification.

The definitions below are a shallow embedding of the Rust sources under
src/core (mtrandom.rs, chain.rs, field.rs, card.rs, effect.rs, processor.rs,
duel.rs, replay.rs).  Machine integers are Nat with explicit reduction
modulo 2^32 where the Rust code wraps; fallible operations return Option;
the Lua scripting bridge is abstracted by oracle functions standing for the
registry of script callbacks.
-/

namespace Osiris

/-! ### Machine-integer helpers -/

/-- Reduction of a Nat to the u32 range, i.e. the value of a wrapping u32. -/
def u32 (x : Nat) : Nat := x % 4294967296

/-- Rust cast of an i32 to u32 (two's complement reinterpretation). -/
def i32_as_u32 (i : Int) : Nat := (i % 4294967296).toNat

/-! ### MT19937 (src/core/mtrandom.rs)

The 624-word u32 state array is packed into a single Nat in base 2^32
(word i occupies bits 32*i .. 32*i+31), so that kernel evaluation of the
generator stays within GMP-accelerated arithmetic.  aget and aset are the
reads and writes of word i used by the Rust code. -/

def mtN : Nat := 624
def mtM : Nat := 397
def matrixA : Nat := 0x9908b0df
def upperMask : Nat := 0x80000000
def lowerMask : Nat := 0x7fffffff

/-- Read the 32-bit word at index i of the packed state array. -/
def aget (a : Nat) (i : Nat) : Nat := (a >>> (32 * i)) &&& 0xFFFFFFFF

/-- Overwrite the 32-bit word at index i of the packed state array with v. -/
def aset (a : Nat) (i : Nat) (v : Nat) : Nat :=
  ((a >>> (32 * (i + 1))) <<< (32 * (i + 1))) + (u32 v <<< (32 * i)) + (a &&& ((1 <<< (32 * i)) - 1))

/-- Seeding loop of Mt19937::new: mt[i] = 1812433253 * (mt[i-1] xor (mt[i-1] >> 30)) + i,
wrapping at 32 bits.  The first argument is the number of remaining iterations. -/
def mt_init_aux : Nat → Nat → Nat → Nat
  | 0, _, a => a
  | fuel+1, i, a =>
    let prev := aget a (i-1)
    mt_init_aux fuel (i+1) (aset a i (u32 (1812433253 * (prev ^^^ (prev >>> 30)) + i)))

/-- Mt19937::new seed initialisation: mt[0] = seed, then the recurrence for i in 1..624. -/
def mt_init (seed : Nat) : Nat :=
  mt_init_aux (mtN - 1) 1 (aset 0 0 (u32 seed))

/-- One twisted word: mt[mIdx] xor (y >> 1) xor (MATRIX_A if y odd) where
y combines the upper bits of mt[kk] with the lower bits of mt[succ]. -/
def twist_val (a : Nat) (kk succ mIdx : Nat) : Nat :=
  let y := (aget a kk &&& upperMask) ||| (aget a succ &&& lowerMask)
  aget a mIdx ^^^ (y >>> 1) ^^^ (if y &&& 1 ≠ 0 then matrixA else 0)

/-- First regeneration loop of gen_u32 (kk < N - M, partner index kk + M). -/
def twist_loop1 : Nat → Nat → Nat → Nat
  | 0, _, a => a
  | f+1, kk, a => twist_loop1 f (kk+1) (aset a kk (twist_val a kk (kk+1) (kk + mtM)))

/-- Second regeneration loop of gen_u32 (N - M ≤ kk < N - 1, partner kk + M - N). -/
def twist_loop2 : Nat → Nat → Nat → Nat
  | 0, _, a => a
  | f+1, kk, a => twist_loop2 f (kk+1) (aset a kk (twist_val a kk (kk+1) (kk + mtM - mtN)))

/-- Full state regeneration of gen_u32 (the three loops of the Rust code). -/
def twist (a : Nat) : Nat :=
  let a1 := twist_loop1 (mtN - mtM) 0 a
  let a2 := twist_loop2 (mtM - 1) (mtN - mtM) a1
  aset a2 (mtN - 1) (twist_val a2 (mtN - 1) 0 (mtM - 1))

structure Mt19937 where
  mt : Nat
  mti : Nat
deriving DecidableEq

def Mt19937.new (seed : Nat) : Mt19937 := ⟨mt_init seed, mtN⟩

/-- Mt19937::gen_u32: regenerate when mti ≥ 624, then temper mt[mti] and advance mti. -/
def gen_u32 (s : Mt19937) : Nat × Mt19937 :=
  let s' := if s.mti ≥ mtN then Mt19937.mk (twist s.mt) 0 else s
  let y0 := aget s'.mt s'.mti
  let y1 := y0 ^^^ (y0 >>> 11)
  let y2 := y1 ^^^ ((y1 <<< 7) &&& 0x9d2c5680)
  let y3 := y2 ^^^ ((y2 <<< 15) &&& 0xefc60000)
  let y4 := y3 ^^^ (y3 >>> 18)
  (y4, Mt19937.mk s'.mt (s'.mti + 1))

/-- The list of the first n outputs of gen_u32 from a given state. -/
def gen_seq : Nat → Mt19937 → List Nat
  | 0, _ => []
  | n+1, s => let p := gen_u32 s; p.1 :: gen_seq n p.2

/-- Rejection loop of get_next_integer: draw, redraw while the word is
strictly below the bound.  Fuel bounds the number of draws; the Rust loop
has no such bound, so exhausting the fuel is modelled as none. -/
def draw_above (bound : Nat) : Nat → Mt19937 → Option (Nat × Mt19937)
  | 0, _ => none
  | fuel+1, s =>
    let p := gen_u32 s
    if p.1 < bound then draw_above bound fuel p.2 else some p

/-- Mt19937::get_next_integer: range = max - min + 1 (wrapping u32),
bound = (2^32 - range) mod range, rejection-sample a word ≥ bound and
return min + word mod range.  A zero range makes the Rust code divide by
zero (a panic), modelled as none. -/
def get_next_integer (fuel : Nat) (s : Mt19937) (mn mx : Nat) : Option (Nat × Mt19937) :=
  let range := u32 (mx - mn + 1)
  if range = 0 then none
  else
    match draw_above ((4294967296 - range) % range) fuel s with
    | none => none
    | some p => some (mn + p.1 % range, p.2)

/-- Vec::swap as used by shuffle_vector: exchange the entries at two
in-bounds indices (out of bounds would panic in Rust, modelled as none). -/
def swap_step (v : List Nat) (i r : Nat) : Option (List Nat) :=
  match v.get? i, v.get? r with
  | some a, some b => some ((v.set i b).set r a)
  | _, _ => none

/-- Loop body of Mt19937::shuffle_vector: n remaining iterations, current
index i, inclusive upper index lastm1; each step consumes one ranged draw
get_next_integer(i, lastm1) and swaps index i with the drawn index. -/
def shuffle_steps (dfuel : Nat) : Nat → Nat → Nat → Mt19937 → List Nat → Option (List Nat × Mt19937)
  | 0, _, _, s, v => some (v, s)
  | n+1, i, lastm1, s, v =>
    match get_next_integer dfuel s i lastm1 with
    | none => none
    | some p =>
      match swap_step v i p.1 with
      | none => none
      | some v' => shuffle_steps dfuel n (i+1) lastm1 p.2 v'

/-- Mt19937::shuffle_vector: clamp last to the vector length, then for i
from first to last-2 swap index i with a ranged draw from [i, last-1]. -/
def shuffle_vector (dfuel : Nat) (s : Mt19937) (v : List Nat) (first last : Nat) :
    Option (List Nat × Mt19937) :=
  let last' := Nat.min last v.length
  shuffle_steps dfuel ((last' - 1) - first) first (last' - 1) s v

/-! ### Locations, phases and engine constants (src/core/enums.rs) -/

def LOCATION_DECK : Nat := 0x1
def LOCATION_HAND : Nat := 0x2
def LOCATION_MZONE : Nat := 0x4
def LOCATION_SZONE : Nat := 0x8
def LOCATION_GRAVE : Nat := 0x10
def LOCATION_REMOVED : Nat := 0x20
def LOCATION_EXTRA : Nat := 0x40

def PHASE_DRAW : Nat := 0x1
def PHASE_MAIN1 : Nat := 0x4
def PHASE_MAIN2 : Nat := 0x100

/-- Modelled from the spec: the numeric value of EVENT_SUMMON_SUCCESS is not
defined under src (enums.rs lacks the EVENT_* constants referenced by
duel.rs); the spec's condition-filtering scenario fixes it as 0x1000. -/
def EVENT_SUMMON_SUCCESS : Nat := 0x1000

/-- Modelled from the spec: the numeric value of EVENT_DRAW is not defined
under src; no claim depends on its value, only on its use as the code of
the event raised by the DRAW phase. -/
def EVENT_DRAW : Nat := 1090

/-- Modelled from the spec: the CardStatus bit for summoned-this-turn is
not defined under src; no claim depends on its value. -/
def STATUS_SUMMON_TURN : Nat := 0x2

/-- bitflags contains: every bit of m is set in l. -/
def loc_contains (l m : Nat) : Bool := l &&& m == m

/-! ### Card record (src/core/card.rs), reduced to the fields the claims
touch; the two stat blocks carry no information relevant to any claim and
are omitted from the embedding. -/

structure Card where
  code : Nat
  owner : Nat
  controller : Nat
  location : Nat
  sequence : Nat
  reason : Nat
  status : Nat
  effects : List Nat
deriving DecidableEq

/-! ### Field (src/core/field.rs)

One PlayerField per player; the Rust fixed arrays of 7 and 8 Option slots
are lists of Option Nat (the concrete states used below have lengths 7 and
8). -/

structure PlayerField where
  deck : List Nat
  hand : List Nat
  grave : List Nat
  «remove» : List Nat
  extra : List Nat
  mzone : List (Option Nat)
  szone : List (Option Nat)
deriving DecidableEq

structure Field where
  p0 : PlayerField
  p1 : PlayerField
deriving DecidableEq

/-- Player indexing of the per-player arrays (the Rust code indexes by
player as usize; only players 0 and 1 occur). -/
def Field.getP (f : Field) (p : Nat) : PlayerField := if p = 0 then f.p0 else f.p1

def Field.setP (f : Field) (p : Nat) (pf : PlayerField) : Field :=
  if p = 0 then { f with p0 := pf } else { f with p1 := pf }

/-- Field::add_card: stacks append; zones assign at the sequence index,
overwriting, and silently ignore an out-of-range index. -/
def PlayerField.add_card (pf : PlayerField) (location card sequence : Nat) : PlayerField :=
  if loc_contains location LOCATION_DECK then { pf with deck := pf.deck ++ [card] }
  else if loc_contains location LOCATION_HAND then { pf with hand := pf.hand ++ [card] }
  else if loc_contains location LOCATION_GRAVE then { pf with grave := pf.grave ++ [card] }
  else if loc_contains location LOCATION_REMOVED then { pf with «remove» := pf.«remove» ++ [card] }
  else if loc_contains location LOCATION_EXTRA then { pf with extra := pf.extra ++ [card] }
  else if loc_contains location LOCATION_MZONE then
    if sequence < pf.mzone.length then { pf with mzone := pf.mzone.set sequence (some card) }
    else pf
  else if loc_contains location LOCATION_SZONE then
    if sequence < pf.szone.length then { pf with szone := pf.szone.set sequence (some card) }
    else pf
  else pf

def Field.add_card (f : Field) (player location card sequence : Nat) : Field :=
  f.setP player ((f.getP player).add_card location card sequence)

/-- Remove the element at an index of a stack, returning it. -/
def stack_remove_at (l : List Nat) (i : Nat) : Option Nat × List Nat :=
  match l.get? i with
  | some c => (some c, l.eraseIdx i)
  | none => (none, l)

/-- Field::remove_card: stacks remove by index; zones take the slot value
(leaving none); returns the removed card when found. -/
def PlayerField.remove_card (pf : PlayerField) (location sequence : Nat) :
    Option Nat × PlayerField :=
  if loc_contains location LOCATION_DECK then
    let p := stack_remove_at pf.deck sequence; (p.1, { pf with deck := p.2 })
  else if loc_contains location LOCATION_HAND then
    let p := stack_remove_at pf.hand sequence; (p.1, { pf with hand := p.2 })
  else if loc_contains location LOCATION_GRAVE then
    let p := stack_remove_at pf.grave sequence; (p.1, { pf with grave := p.2 })
  else if loc_contains location LOCATION_REMOVED then
    let p := stack_remove_at pf.«remove» sequence; (p.1, { pf with «remove» := p.2 })
  else if loc_contains location LOCATION_EXTRA then
    let p := stack_remove_at pf.extra sequence; (p.1, { pf with extra := p.2 })
  else if loc_contains location LOCATION_MZONE then
    if sequence < pf.mzone.length then
      ((pf.mzone.getD sequence none), { pf with mzone := pf.mzone.set sequence none })
    else (none, pf)
  else if loc_contains location LOCATION_SZONE then
    if sequence < pf.szone.length then
      ((pf.szone.getD sequence none), { pf with szone := pf.szone.set sequence none })
    else (none, pf)
  else (none, pf)

/-- Remove the first occurrence of a card id from a stack list. -/
def stack_remove_card (l : List Nat) (c : Nat) : Option Nat × List Nat :=
  match l.findIdx? (· == c) with
  | some i => (some c, l.eraseIdx i)
  | none => (none, l)

/-- Field::remove_card_from_stack: search the stack for the card id and
remove it; non-stack locations yield none. -/
def PlayerField.remove_card_from_stack (pf : PlayerField) (location card : Nat) :
    Option Nat × PlayerField :=
  if loc_contains location LOCATION_DECK then
    let p := stack_remove_card pf.deck card; (p.1, { pf with deck := p.2 })
  else if loc_contains location LOCATION_HAND then
    let p := stack_remove_card pf.hand card; (p.1, { pf with hand := p.2 })
  else if loc_contains location LOCATION_GRAVE then
    let p := stack_remove_card pf.grave card; (p.1, { pf with grave := p.2 })
  else if loc_contains location LOCATION_REMOVED then
    let p := stack_remove_card pf.«remove» card; (p.1, { pf with «remove» := p.2 })
  else if loc_contains location LOCATION_EXTRA then
    let p := stack_remove_card pf.extra card; (p.1, { pf with extra := p.2 })
  else (none, pf)

/-- Scan of Field::find_empty_mzone_slot: first index holding none. -/
def find_empty_slot_aux : List (Option Nat) → Nat → Option Nat
  | [], _ => none
  | none :: _, i => some i
  | some _ :: t, i => find_empty_slot_aux t (i + 1)

/-- Field::find_empty_mzone_slot: smallest free monster-zone index. -/
def PlayerField.find_empty_mzone_slot (pf : PlayerField) : Option Nat :=
  find_empty_slot_aux pf.mzone 0

/-! ### Effects, chain links and the script-callback oracle
(src/core/effect.rs, src/core/chain.rs) -/

/-- Effect record; the four script-callback handles are registry keys
(opaque Nat handles into the Lua registry). -/
structure Effect where
  id : Nat
  owner : Nat
  description : Nat
  code : Nat
  type_ : Nat
  range : Nat
  flag : Nat
  condition : Option Nat
  cost : Option Nat
  target : Option Nat
  operation : Option Nat
deriving DecidableEq

/-- The standard 8-tuple of arguments (e, tp, eg, ep, ev, re, r, rp)
delivered to every effect callback; groups are sets of card ids, embedded
as lists. -/
structure LuaArgs where
  e : Nat
  tp : Nat
  eg : Option (List Nat)
  ep : Nat
  ev : Nat
  re : Option Nat
  r : Nat
  rp : Nat
deriving DecidableEq

/-- ChainLink (src/core/chain.rs): snapshot of the trigger moment. -/
structure ChainLink where
  effect_id : Nat
  trigger_player : Nat
  check_player : Nat
  target_cards : Option (List Nat)
  reason_effect : Option Nat
  reason_player : Nat
  evt_group : Option (List Nat)
  evt_player : Nat
  evt_value : Nat
  evt_effect : Option Nat
  evt_reason : Nat
  evt_r_player : Nat
deriving DecidableEq

/-! ### Processor units (src/core/processor.rs) -/

inductive ProcessorType where
  | turn | phaseEvent | pointEvent | quickEffect | idleCommand | selectCard
  | selectChain | battle | damageCalc | summon | position | specialSummon
  | normalSummon | setMonster | setSpellTrap | activateEffect | resolveChain
  | solveChain
deriving DecidableEq

structure ProcessorUnit where
  type_ : ProcessorType
  step : Nat
  arg1 : Nat
  arg2 : Nat
deriving DecidableEq

inductive ProcessResult where
  | Continue | Waiting | End
deriving DecidableEq

/-! ### DuelData (src/core/duel.rs) -/

structure DuelData where
  cards : List Card
  field : Field
  random : Mt19937
  chain : List ChainLink
  processor_units : List ProcessorUnit
  phase : Nat
  turn : Nat
  turn_player : Nat
  lp : Nat × Nat
  effects : List Effect
  triggered_effects : List Nat
  response : Int
deriving DecidableEq

/-- The Lua runtime's registry of script callbacks, abstracted: condFn maps
a condition registry key to the function it holds (none models a dangling
key, i.e. a failed registry_value lookup), and the function models the Lua
call, either returning a Bool or raising a script error.  opFn does the
same for operation callbacks, whose body may mutate the whole duel state. -/
structure ScriptEnv where
  condFn : Nat → Option (LuaArgs → Except Unit Bool)
  opFn : Nat → Option (LuaArgs → DuelData → DuelData)

def DuelData.get_card (st : DuelData) (cid : Nat) : Option Card := st.cards.get? cid

/-- In-place update of the card record at an index (get_mut followed by a
field assignment in the Rust code; out-of-range indices are no-ops). -/
def update_card (cards : List Card) (i : Nat) (f : Card → Card) : List Card :=
  match cards.get? i with
  | some c => cards.set i (f c)
  | none => cards

/-! ### Event dispatch and the chain (Duel::raise_event_static,
Duel::get_lua_args, Duel::get_lua_args_with_context,
Duel::execute_effect_static, Duel::resolve_chain in src/core/duel.rs) -/

/-- Duel::get_lua_args: the tuple (e, tp, eg, ep, ev, re, r, rp) built for
condition evaluation, with ev = 0 and r = 0 and ep = rp = reason_player. -/
def get_lua_args (effect_id trigger_player : Nat) (event_cards : Option (List Nat))
    (reason_player : Nat) (reason_effect : Option Nat) : LuaArgs :=
  ⟨effect_id, trigger_player, event_cards, reason_player, 0, reason_effect, 0, reason_player⟩

/-- Duel::get_lua_args_with_context: the tuple with explicit event value
and event reason, used at operation resolution. -/
def get_lua_args_with_context (effect_id trigger_player : Nat)
    (event_cards : Option (List Nat)) (reason_player : Nat) (reason_effect : Option Nat)
    (event_value event_reason : Nat) : LuaArgs :=
  ⟨effect_id, trigger_player, event_cards, reason_player, event_value, reason_effect,
    event_reason, reason_player⟩

/-- The chain link built by raise_event_static for a triggered effect:
trigger_player and check_player are written as 0, the frozen event context
copies the event cards, reason player and reason effect, and evt_value and
evt_reason are written as 0. -/
def mk_link (eid : Nat) (event_cards : Option (List Nat)) (reason_player : Nat)
    (reason_effect : Option Nat) : ChainLink :=
  ⟨eid, 0, 0, event_cards, reason_effect, reason_player,
    event_cards, reason_player, 0, reason_effect, 0, reason_player⟩

/-- The argument tuple rebuilt from a chain link by resolve_chain /
execute_effect_static: (effect_id, trigger_player, evt_group, evt_r_player,
evt_value, evt_effect, evt_reason, evt_r_player). -/
def resolve_args (l : ChainLink) : LuaArgs :=
  get_lua_args_with_context l.effect_id l.trigger_player l.evt_group l.evt_r_player
    l.evt_effect l.evt_value l.evt_reason

/-- DuelData::get_matching_effects: indices of effects whose code equals
the event code, in arena order. -/
def get_matching_effects (effects : List Effect) (code : Nat) : List Nat :=
  (effects.enum.filter (fun p => p.2.code == code)).map Prod.fst

/-- Condition outcome for one candidate: a missing effect, a missing
condition key or a dangling registry key count as triggered (the Rust code
treats an absent function as pass); a live function is called and a script
error is treated as false. -/
def cond_result (env : ScriptEnv) (effects : List Effect) (eid : Nat) (args : LuaArgs) : Bool :=
  match ((effects.get? eid).bind Effect.condition).bind env.condFn with
  | some f =>
    match f args with
    | .ok b => b
    | .error _ => false
  | none => true

/-- Step 3 of raise_event_static: evaluate each candidate's condition on
the standard tuple and collect, in candidate order, the triggered effect
ids and their snapshot chain links. -/
def raise_loop (env : ScriptEnv) (effects : List Effect) (event_cards : Option (List Nat))
    (reason_player : Nat) (reason_effect : Option Nat) :
    List Nat → List Nat × List ChainLink
  | [] => ([], [])
  | eid :: rest =>
    let tl := raise_loop env effects event_cards reason_player reason_effect rest
    if cond_result env effects eid
        (get_lua_args eid reason_player event_cards reason_player reason_effect) then
      (eid :: tl.1, mk_link eid event_cards reason_player reason_effect :: tl.2)
    else tl

/-- Duel::raise_event_static: enumerate candidates by code, evaluate
conditions, append the triggered ids to triggered_effects and their
snapshot links to the chain. -/
def raise_event (env : ScriptEnv) (st : DuelData) (code : Nat)
    (event_cards : Option (List Nat)) (reason_player : Nat)
    (reason_effect : Option Nat) : DuelData :=
  let p := raise_loop env st.effects event_cards reason_player reason_effect
    (get_matching_effects st.effects code)
  { st with triggered_effects := st.triggered_effects ++ p.1, chain := st.chain ++ p.2 }

/-- Duel::execute_effect_static for one link: look up the operation
callback and run it on the tuple rebuilt from the link's frozen context
(the Lua body may mutate the whole duel state). -/
def execute_op (env : ScriptEnv) (st : DuelData) (l : ChainLink) : DuelData :=
  match ((st.effects.get? l.effect_id).bind Effect.operation).bind env.opFn with
  | some op => op (resolve_args l) st
  | none => st

/-- Duel::resolve_chain: pop the last link and execute its operation until
the chain is empty; fuel bounds the number of pops (operations can push). -/
def resolve_chain (env : ScriptEnv) : Nat → DuelData → DuelData
  | 0, st => st
  | fuel+1, st =>
    match st.chain.getLast? with
    | none => st
    | some l => resolve_chain env fuel (execute_op env { st with chain := st.chain.dropLast } l)

/-! ### Mutation primitives (DuelData::send_card_to, DuelData::draw,
Duel::move_card_internal, the Duel.Summon Lua binding in src/core/duel.rs) -/

/-- Shared removal step: zones are removed by sequence index, stacks by
card-id search, based on the card's current location. -/
def remove_current (fld : Field) (c : Card) (card_id : Nat) : Option Nat × PlayerField :=
  if loc_contains c.location LOCATION_MZONE || loc_contains c.location LOCATION_SZONE then
    (fld.getP c.controller).remove_card c.location c.sequence
  else
    (fld.getP c.controller).remove_card_from_stack c.location card_id

/-- DuelData::send_card_to: set the card's reason, remove it from its
current location, set controller/location and sequence 0 on the record,
and add it to the target location at sequence 0. -/
def send_card_to (st : DuelData) (card_id target_player location reason : Nat) :
    Bool × DuelData :=
  let st := { st with cards := update_card st.cards card_id (fun c => { c with reason := reason }) }
  match st.get_card card_id with
  | none => (false, st)
  | some c =>
    let rem := remove_current st.field c card_id
    match rem.1 with
    | none => (false, st)
    | some _ =>
      let cards := update_card st.cards card_id
        (fun cm => { cm with controller := target_player, location := location, sequence := 0 })
      let fld := (st.field.setP c.controller rem.2).add_card target_player location card_id 0
      (true, { st with cards := cards, field := fld })

/-- Duel::move_card_internal: remove from the current location, update the
record, add at the target sequence, then for stack targets overwrite the
record's sequence with the final appended index. -/
def move_card_internal (st : DuelData) (card_id target_player target_loc target_seq : Nat) :
    Bool × DuelData :=
  match st.get_card card_id with
  | none => (false, st)
  | some c =>
    let rem := remove_current st.field c card_id
    match rem.1 with
    | none => (false, st)
    | some _ =>
      let cards := update_card st.cards card_id
        (fun cm => { cm with controller := target_player, location := target_loc,
                             sequence := target_seq })
      let fld := (st.field.setP c.controller rem.2).add_card target_player target_loc card_id target_seq
      let cards :=
        if loc_contains target_loc LOCATION_DECK then
          update_card cards card_id (fun cm => { cm with sequence := (fld.getP target_player).deck.length - 1 })
        else if loc_contains target_loc LOCATION_HAND then
          update_card cards card_id (fun cm => { cm with sequence := (fld.getP target_player).hand.length - 1 })
        else if loc_contains target_loc LOCATION_GRAVE then
          update_card cards card_id (fun cm => { cm with sequence := (fld.getP target_player).grave.length - 1 })
        else if loc_contains target_loc LOCATION_REMOVED then
          update_card cards card_id (fun cm => { cm with sequence := (fld.getP target_player).«remove».length - 1 })
        else if loc_contains target_loc LOCATION_EXTRA then
          update_card cards card_id (fun cm => { cm with sequence := (fld.getP target_player).extra.length - 1 })
        else cards
      (true, { st with cards := cards, field := fld })

/-- The Duel.Summon Lua binding: find an empty monster-zone slot, send the
card to the monster zone via send_card_to (which targets sequence 0), set
the summoned-this-turn status, and raise EVENT_SUMMON_SUCCESS with the card
as event group.  Returns the state and the Lua return value (1 or 0). -/
def summon (env : ScriptEnv) (st : DuelData) (player card_id : Nat) : DuelData × Nat :=
  match (st.field.getP player).find_empty_mzone_slot with
  | some _ =>
    let p := send_card_to st card_id player LOCATION_MZONE 0
    if p.1 then
      let st1 := { p.2 with cards := (update_card p.2.cards card_id
        (fun c => { c with status := c.status ||| STATUS_SUMMON_TURN })) }
      (raise_event env st1 EVENT_SUMMON_SUCCESS (some [card_id]) player none, 1)
    else (p.2, 0)
  | none => (st, 0)

/-- Loop body of DuelData::draw: pop a card from the deck end, append it to
the hand, set its location to HAND and sequence to the new hand index;
stop early on an empty deck. -/
def draw_loop (p : Nat) : Nat → DuelData → DuelData
  | 0, st => st
  | n+1, st =>
    let pf := st.field.getP p
    match pf.deck.getLast? with
    | none => st
    | some cid =>
      let pf2 := { pf with deck := pf.deck.dropLast, hand := pf.hand ++ [cid] }
      let cards2 := update_card st.cards cid
        (fun c => { c with location := LOCATION_HAND, sequence := pf2.hand.length - 1 })
      draw_loop p n { st with field := st.field.setP p pf2, cards := cards2 }

def draw (st : DuelData) (player count : Nat) : DuelData := draw_loop player count st

/-! ### The processor step (Duel::process in src/core/duel.rs) -/

/-- Duel::process: resolve a pending chain first; otherwise dispatch on the
front unit.  Turn pops and pushes PhaseEvent(DRAW).  PhaseEvent(DRAW) pops,
draws one card for the turn player, raises EVENT_DRAW and pushes
PointEvent; MAIN1/MAIN2 wait; other phases pop.  PointEvent pops and, when
triggers are pending, pushes SelectChain.  SelectChain step 0 advances to
step 1 and waits; step 1 consumes the response, clears the triggers,
resets the response and pushes SolveChain when the nonzero response
matched a triggered effect id, else PhaseEvent(MAIN1).  SolveChain step 0
pops, pushes PhaseEvent(MAIN1) and resolves the chain. -/
def process (env : ScriptEnv) (rfuel : Nat) (st : DuelData) : DuelData × ProcessResult :=
  if st.chain.length > 0 then (resolve_chain env rfuel st, .Continue)
  else
    match st.processor_units with
    | [] => (st, .End)
    | u :: rest =>
      match u.type_ with
      | .turn =>
        ({ st with processor_units := ⟨.phaseEvent, 0, PHASE_DRAW, 0⟩ :: rest }, .Continue)
      | .phaseEvent =>
        if u.arg1 = PHASE_DRAW then
          let st1 := { st with processor_units := rest }
          let tp := st1.turn_player
          let st2 := draw st1 tp 1
          let st3 := raise_event env st2 EVENT_DRAW none tp none
          ({ st3 with processor_units := ⟨.pointEvent, 0, 0, 0⟩ :: st3.processor_units }, .Continue)
        else if u.arg1 = PHASE_MAIN1 ∨ u.arg1 = PHASE_MAIN2 then (st, .Waiting)
        else ({ st with processor_units := rest }, .Continue)
      | .pointEvent =>
        if st.triggered_effects.isEmpty then ({ st with processor_units := rest }, .Continue)
        else ({ st with processor_units := ⟨.selectChain, 0, 0, 0⟩ :: rest }, .Continue)
      | .selectChain =>
        match u.step with
        | 0 => ({ st with processor_units := { u with step := 1 } :: rest }, .Waiting)
        | 1 =>
          let response := st.response
          let found :=
            if response ≠ 0 then st.triggered_effects.any (fun e => e == i32_as_u32 response)
            else false
          let shouldSolve := decide (response ≠ 0) && found
          let newUnit :=
            if shouldSolve then ProcessorUnit.mk .solveChain 0 0 0
            else ProcessorUnit.mk .phaseEvent 0 PHASE_MAIN1 0
          ({ st with triggered_effects := [], response := 0,
                     processor_units := newUnit :: rest }, .Continue)
        | _ => ({ st with processor_units := rest }, .Continue)
      | .solveChain =>
        match u.step with
        | 0 =>
          let st1 := { st with processor_units := ⟨.phaseEvent, 0, PHASE_MAIN1, 0⟩ :: rest }
          (resolve_chain env rfuel st1, .Continue)
        | _ => ({ st with processor_units := rest }, .Continue)
      | _ => ({ st with processor_units := rest }, .Continue)

/-! ### Replay codec (src/core/replay.rs)

Byte streams are lists of Nat (each element a byte); readers return the
value and the next cursor position, none on a short read.  The LZMA
decompressor and the native fallback are external collaborators, passed
in as oracle functions. -/

def REPLAY_COMPRESSED : Nat := 0x1
def REPLAY_TAG : Nat := 0x2
def REPLAY_SINGLE_MODE : Nat := 0x8
def REPLAY_ID_YRP1 : Nat := 0x31707279
def REPLAY_ID_YRP2 : Nat := 0x32707279
def MAINC_MAX : Nat := 250

def read_u8 (b : List Nat) (i : Nat) : Option (Nat × Nat) :=
  (b.get? i).map (fun v => (v, i + 1))

def read_u16 (b : List Nat) (i : Nat) : Option (Nat × Nat) := do
  let p0 ← read_u8 b i
  let p1 ← read_u8 b p0.2
  pure (p0.1 + 256 * p1.1, p1.2)

def read_u32 (b : List Nat) (i : Nat) : Option (Nat × Nat) := do
  let p0 ← read_u16 b i
  let p1 ← read_u16 b p0.2
  pure (p0.1 + 65536 * p1.1, p1.2)

/-- Little-endian i32 read: reinterpret the u32 as a signed value. -/
def read_i32 (b : List Nat) (i : Nat) : Option (Int × Nat) :=
  (read_u32 b i).map (fun p => (if p.1 < 2147483648 then (p.1 : Int) else (p.1 : Int) - 4294967296, p.2))

def read_bytes (b : List Nat) (i n : Nat) : Option (List Nat × Nat) :=
  if i + n ≤ b.length then some ((b.drop i).take n, i + n) else none

/-- Read n little-endian u16 values. -/
def read_u16s : Nat → List Nat → Nat → Option (List Nat × Nat)
  | 0, _, i => some ([], i)
  | n+1, b, i => do
    let p ← read_u16 b i
    let q ← read_u16s n b p.2
    pure (p.1 :: q.1, q.2)

/-- Read n little-endian u32 values. -/
def read_u32s : Nat → List Nat → Nat → Option (List Nat × Nat)
  | 0, _, i => some ([], i)
  | n+1, b, i => do
    let p ← read_u32 b i
    let q ← read_u32s n b p.2
    pure (p.1 :: q.1, q.2)

/-- Read n player names of 20 UTF-16 code units each, trimmed at the first
NUL (String::from_utf16_lossy applied to the trimmed units; names are kept
as code-unit lists in the embedding). -/
def read_names : Nat → List Nat → Nat → Option (List (List Nat) × Nat)
  | 0, _, i => some ([], i)
  | n+1, b, i => do
    let p ← read_u16s 20 b i
    let q ← read_names n b p.2
    pure (p.1.takeWhile (fun v => v != 0) :: q.1, q.2)

structure ReplayHeader where
  id : Nat
  version : Nat
  flag : Nat
  seed : Nat
  datasize : Nat
  start_time : Nat
  props : List Nat
deriving DecidableEq

structure DuelParameters where
  start_lp : Int
  start_hand : Int
  draw_count : Int
  duel_flag : Nat
deriving DecidableEq

def DuelParameters.default : DuelParameters := ⟨0, 0, 0, 0⟩

structure DeckArray where
  main : List Nat
  extra : List Nat
deriving DecidableEq

structure Replay where
  header : ReplayHeader
  players : List (List Nat)
  params : DuelParameters
  decks : List DeckArray
  script_name : Option (List Nat)
  data : List Nat
  actions : List Nat
  packet_data : List (List Nat)
  decompressed_ok : Bool
deriving DecidableEq

/-- Per-player deck reading: main count (at most 250) and codes, then
extra count (at most 250) and codes. -/
def read_decks : Nat → List Nat → Nat → Option (List DeckArray × Nat)
  | 0, _, i => some ([], i)
  | n+1, b, i => do
    let m ← read_u32 b i
    if m.1 > MAINC_MAX then none
    else do
      let mv ← read_u32s m.1 b m.2
      let e ← read_u32 b mv.2
      if e.1 > MAINC_MAX then none
      else do
        let ev ← read_u32s e.1 b e.2
        let rest ← read_decks n b ev.2
        pure (⟨mv.1, ev.1⟩ :: rest.1, rest.2)

/-- Action-stream framing with a one-byte length prefix; returns the
packets and the number of truncated frames. -/
def split_with_u8 : List Nat → List (List Nat) × Nat
  | [] => ([], 0)
  | len :: rest =>
    if len ≤ rest.length then
      let p := split_with_u8 (rest.drop len)
      (rest.take len :: p.1, p.2)
    else ([rest], 1)
termination_by l => l.length
decreasing_by simp [List.length_drop]; omega

/-- Action-stream framing with a two-byte little-endian length prefix;
a truncated frame is pushed and then pushed again by the leftover check
of the Rust code when bytes remain. -/
def split_with_u16 : List Nat → List (List Nat) × Nat
  | [] => ([], 0)
  | [x] => ([[x]], 0)
  | b0 :: b1 :: rest =>
    let len := b0 + 256 * b1
    if len ≤ rest.length then
      let p := split_with_u16 (rest.drop len)
      (rest.take len :: p.1, p.2)
    else if rest.length = 0 then ([rest], 1)
    else ([rest, rest], 1)
termination_by l => l.length
decreasing_by simp [List.length_drop]; omega

/-- The LZMA resolution of the compressed branch of Replay::open: try the
props-prefixed stream, then the raw stream, then the native fallback; on
success check the decompressed length against datasize. -/
def resolve_body (lzma lzma_native : List Nat → Option (List Nat))
    (props comp : List Nat) (datasize : Nat) : List Nat × Bool :=
  let d :=
    match lzma (props.take 5 ++ comp) with
    | some d => (d, true)
    | none =>
      match lzma comp with
      | some d => (d, true)
      | none =>
        match lzma_native comp with
        | some d => (d, true)
        | none => ([], false)
  if d.2 && decide (d.1.length ≠ datasize) then (d.1, false) else d

/-- The minimal replay returned when decompression fails: raw bytes as
actions, everything else empty. -/
def failed_replay (base : ReplayHeader) (comp : List Nat) : Replay :=
  ⟨base, [], DuelParameters.default, [], none, [], comp, [], false⟩

/-- Header parsing of Replay::open: the six u32 fields and the 8 props
bytes, plus the extended yrp2 fields (8 seed words and 4 values, read and
discarded); returns the header and the body offset. -/
def read_header (bytes : List Nat) : Option (ReplayHeader × Nat) := do
  let pid ← read_u32 bytes 0
  let pver ← read_u32 bytes pid.2
  let pflag ← read_u32 bytes pver.2
  let pseed ← read_u32 bytes pflag.2
  let psize ← read_u32 bytes pseed.2
  let ptime ← read_u32 bytes psize.2
  let pprops ← read_bytes bytes ptime.2 8
  let istart ← if pid.1 = REPLAY_ID_YRP2 then (read_bytes bytes pprops.2 48).map Prod.snd
               else some pprops.2
  pure (⟨pid.1, pver.1, pflag.1, pseed.1, psize.1, ptime.1, pprops.1⟩, istart)

/-- Single-mode branch: a length-prefixed script name (1..255 bytes) that
must start with ./single/; the stored name drops that prefix. -/
def parse_single_mode (data : List Nat) (i : Nat) :
    Option (List DeckArray × Option (List Nat) × Nat) := do
  let ps ← read_u16 data i
  if ps.1 = 0 ∨ ps.1 > 255 then none
  else do
    let pn ← read_bytes data ps.2 ps.1
    if pn.1.take 9 = [46, 47, 115, 105, 110, 103, 108, 101, 47] then
      pure (([] : List DeckArray), some (pn.1.drop 9), pn.2)
    else none

/-- Deck branch: one DeckArray per player. -/
def parse_decks_part (player_count : Nat) (data : List Nat) (i : Nat) :
    Option (List DeckArray × Option (List Nat) × Nat) := do
  let pd ← read_decks player_count data i
  pure (pd.1, (none : Option (List Nat)), pd.2)

/-- Framing selection for the action stream: the framing with fewer
truncated frames wins, ties going to the one-byte framing. -/
def choose_packets (actions : List Nat) : List (List Nat) :=
  let s8 := split_with_u8 actions
  let s16 := split_with_u16 actions
  if s8.2 ≤ s16.2 then s8.1 else s16.1

/-- Body parsing of Replay::open on the (decompressed) data: player names,
DuelParameters, decks or single-mode script name, action stream. -/
def parse_replay_data (base : ReplayHeader) (data : List Nat) : Option Replay := do
  let player_count := if base.flag &&& REPLAY_TAG ≠ 0 then 4 else 2
  let pnames ← read_names player_count data 0
  let plp ← read_i32 data pnames.2
  let phand ← read_i32 data plp.2
  let pdraw ← read_i32 data phand.2
  let pdflag ← read_u32 data pdraw.2
  let dk ← if base.flag &&& REPLAY_SINGLE_MODE ≠ 0 then parse_single_mode data pdflag.2
           else parse_decks_part player_count data pdflag.2
  let actions := data.drop dk.2.2
  pure ⟨base, pnames.1, ⟨plp.1, phand.1, pdraw.1, pdflag.1⟩, dk.1, dk.2.1,
        data, actions, choose_packets actions, true⟩

/-- Replay::open.  The file content is the byte list; the two function
arguments model the external lzma-rs decompressor and the native LZMA
fallback.  Parse failures are none (the Rust code returns Err). -/
def replay_open (lzma lzma_native : List Nat → Option (List Nat))
    (bytes : List Nat) : Option Replay := do
  let ph ← read_header bytes
  let comp := bytes.drop ph.2
  let body :=
    if ph.1.flag &&& REPLAY_COMPRESSED ≠ 0 then
      resolve_body lzma lzma_native ph.1.props comp ph.1.datasize
    else (comp, true)
  if body.2 = false then pure (failed_replay ph.1 comp)
  else parse_replay_data ph.1 body.1

/-- UTF-16 code units of an ASCII string. -/
def utf16 (s : String) : List Nat := s.data.map Char.toNat

def u16le (n : Nat) : List Nat := [n % 256, n / 256 % 256]

def u32le (n : Nat) : List Nat := [n % 256, n / 256 % 256, n / 65536 % 256, n / 16777216 % 256]

/-- A 20-code-unit NUL-padded UTF-16LE name field. -/
def name20 (s : List Nat) : List Nat :=
  ((s ++ List.replicate (20 - s.length) 0).map u16le).flatten

/-- Body of the minimal uncompressed replay of the C9 scenario: players
Alice and Bob, DuelParameters with start_lp 8000, and per player a main
deck of the single code 12345 with an empty extra deck. -/
def c9_body : List Nat :=
  name20 (utf16 "Alice") ++ name20 (utf16 "Bob") ++
  u32le 8000 ++ u32le 5 ++ u32le 1 ++ u32le 0 ++
  (u32le 1 ++ u32le 12345 ++ u32le 0) ++ (u32le 1 ++ u32le 12345 ++ u32le 0)

/-- The minimal uncompressed replay file: yrp1 header with flag 0 followed
by the body. -/
def c9_bytes : List Nat :=
  u32le REPLAY_ID_YRP1 ++ u32le 0x12d0 ++ u32le 0 ++ u32le 0 ++
  u32le c9_body.length ++ u32le 0 ++ List.replicate 8 0 ++ c9_body

/-! ### Precomputed MT19937 state literals for seed 5489, used to evaluate
the generator in bounded-depth chunks (the packed representation of the
state after 311 seeding steps, after full seeding, after the first twist
loop, after the second twist loop, and after the full twist). -/

/-- Precomputed packed MT19937 state literal mtMid5489 (see the chunked
evaluation lemmas below). -/
def mtMid5489 : Nat :=
  109397933534159625949833065527123671665594934984350052817392705937717881393113934168859030184571950215978992891291374957326645968565002494384069968088317666403484257288926195079164880764481115774910874383883464913742645643195511754991215112969551391962301988699259304947047422808473396543676836813373198856764647441845760378262582451834571963749391678907719003784537209564501304950871403291595127842597124314682469710671163000079033569652428028351450711632730627139890455492550157075901934810982169709933063566553776208319487499470082787204934580777826343668755017622248807517227735771020680535714145572781505760566365364534756873290094519816428857807481553704179465581813995310779074161320833735980090415214328464081670658461279957713993786812973905203844775195259325154519842716488008416462031371258537500507949333431421115498355369980665109081384221599641533253639678328130198944858937377146790046518782381924417839134364962531507391552059877198949009243785512822540394169282346211200731173491487001590257345965486324776023701692272889233589507741954585432144485609204339224590428359326394346973713988513600478777848781819901360468369522143874944789255590462300892714831969630045071253348864681248633646316761023646915272544482289571758908480969984184962133531942194625722503516868690367377210772406099217930988565699923811306828750729608065112587433499827106518945389752937437608486802264161066068900879291980278465559668443058175997152015678030080920703144504410407783610221581579922082827931469241896488664522287514655201203385939284877261110419347783299996540963520537724516091187548903686523575961813963153742030245201240999666205572459738622682008488811208382823994733865469841692299334637034686041927257088119478737209689733273025807999504581625868174984025911210363909168894413050600067915410556340796029854138327673376127629243981829875094448850799666185355361878629510601690681525558690845948991827252206701670297974245637072925864328623040341952198036540917676786489970534273975123358371986726759624479388013177290200490916671753881162210515936197025758492038584112121664979355233105286301900601002943058234286107019473872160881973857130266498259973127162266333215230754805780433202111419081331173995236001394951673146845793574100176001167663494236450025156125671334107419839856832333080952407776592126485036147702938678344817052901189934011233199544487932691678321240086542870530209012420250247103755509490607789117141609759209236852925963913779188828609096290843181680860173746038626978337129093453244297838680970356996475436089773203531156785859476231082824225875749385072310357872643939343759993540265309907290827849514828387798072265047862078179440853803906096548042940330163453984362976853040968811845008098437696906706966102354177333003270344842162225638305944639175600885066086468108169768355814709664587493215634588775559589226298935267409317316586149167866237602926899991426677902686854081412671975841428291095180634112314551270151794930379198343734182688631238251660762984858260849

/-- Precomputed packed MT19937 state literal mtInit5489 (see the chunked
evaluation lemmas below). -/
def mtInit5489 : Nat :=
  1725780768236121782826444121900243036846539272301061415252192496896117329660740969995739086614188566620063930677429770444434517096500351452725660213908459449787153400866556696309237449019961963509739109602633677947539851779406991756639322724627774273307466757201587501850913424006126043233851377695136260347880239921787432405568804868406702680552858807184485272844855790944620881652883232530058066384987139173090005226640170938193845921222900999242296048933707097485000721227185950979323562604897153216333584663266586716045538894230930830383165763977261540890477616083278685484734646832421308561841601662172327349208238550396561894914434214423363478437038754905737418281802176052740986985063211546966215013070323667891126565436195620999300592252259255504146147864693330552590008945490539902876420179159559836304083542929129709385747596149858164095688282959225490384639235827903545309150945065565658921678870597392675749181362980656421199806791812489487911559538450676118369464115502785699901453698280542811059582076008665099129623309973946751119897482092200935037123023740071057400219242523890835064517837271713860063487795602764528192130507332245320758638324194830348685127275993808872941615901034504167575408530612093681767780394315784882602428216647566513666188312129545329400624170073831682403535284243149273047489787716177964407441190827776986002773651608154377133480291339053644626428003423672253093876864574537897970466400932458703679585540924306186591883544262257063460695028712411522712833301402349700566665330729110356549898107267113094486525336772801908215717463767892363176790120692824464047235539977015725837873401403877669823302653005159282544320419798306099581793312689371512183101745266809380839754800461630774420575958778181017401736982576935313595902946621483336099874454491959853548998876795577196827090200660308500900603938021785028186294473266643498643577334702443798495831712955246896892179196643060737584058404252198724450309300203493466802553787887457681104568122586729056395383762327841522156259894659357384132074951087046060958260707616097418787710682782062659868120635983095503577935687237165116997310650667188661565160688131081997458308043323359160880454980696561792004773139002716900786103281392228470136700299378221736949485664411762514705115639286693341924869640310981182244004880350720248527821842838409271557510269315083488576481839328618380951614323177308720026483958465205492327301950954919027609809693492242467221265331341124164753856837267564153081406487900072554493832613797269768725587154622374720374810326755607382549595940984021469950474879890122341527930468276188597528897380510165103863830465874962677081010859299229440345146787004646286552497439284097252850513349573525789903522427006606006165327621451780595218045407833249009050186107383238656645427188761991804490767811265720621551006053621632355800141331800683120503859916693192673592281970939341917402907218389915622438576443849043768984774957328455345780445777391073456366244799657455520259948594711650124635650691517978694770389793629471903387072575212021421944160105174045435061352421064580984246634852922360389133440633190099987061859062462198189870813106509273630242635775626873362164084088841200512243595952853354043983198257726653036122285372144312119802019766306759361934063171766059557896953148433351024369076218775769807958725382006759504585500274293128471945993357376835801845949350157844291459416191034604986105660432474945390873537428692443556732539225351596417353170914181761639726551321088329146747686149588146449187123649865705422254343662733040366935115842828389737625373151953077099536646202910979601161887851154090614239933934389939996429335839625253708998786407449366009446061302670030753266664777073575816068023101388812151541283163738230219479152870329247695827969628067796691120372887694719012898951268734915323033768347949706862662236588557169168073722481796280779620754601612151227170302227269292500821109754654546985647275901462922291458117826159614987827503019693172429469340489326753133981951790591728686928519488926230781113758245246338973099648489221111299852436480612201043604044962479575212955336695752077339644573417890969260708968092809050505924344893158773866470739475625470698831482664963830524389869811279153575739920146165338772046138185672128875835818662346503840180630763890224527149964563255333903983770205501043625078621150270552310240581274829347202436728378353064776675929546738604846545905486641289256059871863288412774203549611771052662176846483007934642645844393000129075813006979845241569212550285492929958441686926818335140682287381091078274622616004202114605489885635502781863361312289857551410794762943007337481465881194025590050567207617102115415785470961353176680477483573251470641797412444547914784276607927406680377121518309186824121033648540587336577513646480152738191667064432309452086998807912899705189500024314178815630418065011809854914913012084282146914338816314493246854515709751182650390511888943649230852928608586177728584173304212011342429061632190245424386516714662787356451482341393215928039119148082360597891042469355238083226135601420120240025336110139869166232267237715884965008833870445600050011257662748934422932959603624638000663352282325244417686255734539469991312011466504527108550884176113199776576326166423623703749929730544722362081144224462399666004314784711279472790121887983575858282783893941662707076525512743204405401246068414614452892791781425836383864178258711699097371221429513463880885318001049742349485541449983270489813884819481614932856939023705624793417603081475423345765423514798944441205815344535883015517654364368849064515689362666160816413590281194136173150788704427241994943143393089711823739677089480507797109164124302221717762077621400512708422551802514716667875826400292303306774163178050899933080538361872321862344564407698912189917854760227138978431585913379770631667284972082533278282406557882110990946501482003495199906050395829802751584805022396176292513268310828019025219710053456452018689507513324751820145

/-- Precomputed packed MT19937 state literal mtTw1_5489 (see the chunked
evaluation lemmas below). -/
def mtTw1_5489 : Nat :=
  1725780768236121782826444121900243036846539272301061415252192496896117329660740969995739086614188566620063930677429770444434517096500351452725660213908459449787153400866556696309237449019961963509739109602633677947539851779406991756639322724627774273307466757201587501850913424006126043233851377695136260347880239921787432405568804868406702680552858807184485272844855790944620881652883232530058066384987139173090005226640170938193845921222900999242296048933707097485000721227185950979323562604897153216333584663266586716045538894230930830383165763977261540890477616083278685484734646832421308561841601662172327349208238550396561894914434214423363478437038754905737418281802176052740986985063211546966215013070323667891126565436195620999300592252259255504146147864693330552590008945490539902876420179159559836304083542929129709385747596149858164095688282959225490384639235827903545309150945065565658921678870597392675749181362980656421199806791812489487911559538450676118369464115502785699901453698280542811059582076008665099129623309973946751119897482092200935037123023740071057400219242523890835064517837271713860063487795602764528192130507332245320758638324194830348685127275993808872941615901034504167575408530612093681767780394315784882602428216647566513666188312129545329400624170073831682403535284243149273047489787716177964407441190827776986002773651608154377133480291339053644626428003423672253093876864574537897970466400932458703679585540924306186591883544262257063460695028712411522712833301402349700566665330729110356549898107267113094486525336772801908215717463767892363176790120692824464047235539977015725837873401403877669823302653005159282544320419798306099581793312689371512183101745266809380839754800461630774420575958778181017401736982576935313595902946621483336099874454491959853548998876795577196827090200660308500900603938021785028186294473266643498643577334702443798495831712955246896892179196643060737584058404252198724450309300203493466802553787887457681104568122586729056395383762327841522156259894659357384132074951087046060958260707616097418787710682782062659868120635983095503577935687237165116997310650667188661565160688131081997458308043323359160880454980696561792004773139002716900786103281392228470136700299378221736949485664411762514705115639286693341924869640310981182244004880350720248527821842838409271557510269315083488576481839328618380951614323177308720026483958465205492327301950954919027609809693492242467221265331341124164753856837267564153081406487900072554493832613797269768725587154622374720374810326755607382549595940984021469950474879890122341527930468276188597528897380510165103863830465874962677081010859299229440345146787004646286552497439284097252850513349573525789903522427006606006165327621451780595218045407833249009050186107383238656645427188761991804490767811265720621551006053621632355800141331800683120503859916693192673592281970939341917402907218389915622438576443849043768984774957328455345780445777391073456366244799657455520259948594711650124635650691517978694770389793629471903387072575212021421944160105174045435061352421064580984246634852922360389133440633190099987061859062462198189870813106509273630242635775626873362164084088841200512243595952853354043983198257726653036122285372144312119802019766306759361934063171766059557896953148433351024369076218775769807958725382006759504585500274293128471945993357376835801845949350157844291459416191034604986105660432474945390873537428692443556732539225351596417353170914181761639726551321088329146747686149588146449187123649865705422254343662733040366935115842828389737625373151953077099536646202910979601161887851154090614239933934389939996429335839625253708998786407449366009446061302670030753266664777073575816068023101388812151541283163738230219479152870329247695827969628067796691120372887694719012898951268807129402365120190019184207313382995390028845077525166939725680473244223915635620947698271198105365320339927447844599588058730627261163694228395164389106978509487816434955077220819464665664294794644717551746059270578373334398692032250655928499355674932888368708880977578453735045239075073558063505200445629043345342793568785272594418066322669515187485479105257997814043035015127464262519448002371543021768690774640496335942577067757537602149509947052420340846366188613986523626730616348833217772345381637655471787938362869357591276102131082623564493256139000638920169407594889298524688560895276103835040132908990494371239607751231469376182428763712101380814960843207128041424915962087847777938208023388937751740577577454493782351123171367435222097412044357868011221629487194915067475357617181660521074354742573636328561752738703863182811906485861046857264413747702010501828074775742101429747783254196724205400702071340280535075212588411339970728045070740269192926414966732606743760515717522885531202979906893956938233171970100940127753440996016377221106704931572464829988207650535771434984809800208483423874207684662746229360302002271274044811132847947421932972666060463836416043223339262702780792670092147118467075846866713475239391171681841497432719825479427577295886927699481329289424232266415869744203523585344765637157823732874149630668590078766351056568832795062095129200769236533476558311504923786989612573418232901467141544831485904226721971485226954425730139322470558020438682560590752728832874602302790980971733171214148032200080240296193890817027322678142637595197987531488781501489366809824164684329169145010845432720438860380554932372432130678832647045996009781147251743533805124822391176022793860046953881583466346117380584170011777365035244842739993192933995543763606989560230529593506420274041690599876766700246475483434536514836850361110869570037932098753472018263009108710673482606064366488192850421222676039573791968766791149755487955536201655846933612280759367858042384523200680740302002780285161576251408230084553334324033439161362281938580784201717645353037782432255713721211446024356922861144037663097033144001951632226811411318997754883020257163813879888229366311

/-- Precomputed packed MT19937 state literal mtTw2_5489 (see the chunked
evaluation lemmas below). -/
def mtTw2_5489 : Nat :=
  1725780771557731245240987171056525946535188483132950282485890447120916802160874335451443368967612674109005846629438285366664034237928048701355255632839800190646344334190399509182682773657121745593210363433917972260747739337900831559014335700113326104438425778778762445455906113363061368589437830770101831652206393980628856352529341114908682859184386202862587669225508055031865062252081725684386445799101056916767241835909277508323323149038908593184239213520544575784112736220831591177642428659568591728981263574778625536217020389969295379504906762560092955285640994116904215915656015758977163468295547149969881998674018358664219969189633497618360678024884905314230980381843129863054931908700983598926069708918428209724819908065328173223997576760917342515206606430422847313304745765240262917780900000797945274334256980024945488604779788615626392545321709612921495497575554182718242745822694868960589942840154314994278433409907477530635363388604751713557171214137346027845175512872073135345208280534766932585993723890525032985957737659650095075591428583445236645756958075403706114386938771186842720066963037700797273895375697176031960068210778633082298703454432417618571066989606583569199994211619240486518127188996595250132580805097994009779544138248376644680155136698167433462434543193216955990109545702235399423235965543106823238331267181817257564153543706998569342281477207316856035597333872983996238576985586765439145421824428022759321410558699308156454571976498633530017507619729576517005380476920454059360508235873817008123829813565928483259540095887784406839132868665077619850280384756606566174285041079429852613751671716686502036439834407457143378911778886966886594662520860515088530734699685920609376851386713168372915027726223097808057918712591035961998505368410740557593634718752720240436643799924982831056994535926508859796089617767416620053575786102491511441926572513892779146175276399983132861182076932238160067485074245842215062017319010447949595576612693265291765970450516123081931148851805452004536675932506181140632050968345704047567078636091200536777891627916466803728120178554079196397177111950510962446475595010273370138538203759190560754771218560375660416455405209309738209505608187730410491598480218586256211457829121817813587056148964673082814116092538064965101986669893670647029778905851944021742229369889334968175614856908609999114601748010292191733590629613630158199099946844527401425941416636561862391985093107488923957319005243487950181392965243151040043933664442401889256226864954377863981423870706507012947357488320778723348476099324499700560212687926885112476246959826440185474123295822465561306428781989475129904055882618342955321279637483500538337711012146168113414967336571917581240679230389845446278069273405482711104531925439567104138292641096572353480987545729678685673552616475721276723595654274674173360653553431170388795236327034128450486439466154784689444261050134951833953023933755641675349009790549694408255817300057460733689712057164478680538293490314075532185089220870761414108185461758911037673579829358845089631218608236642488707471500703880004606453588436630345977457273977877174640478832330527182890324290343557559917257674263265463108887843284643106880453853048308834705591608686215028308609348038349644102592589354328251030533827885005865841096601587519700471387245368674141168675301211700246657945554121078125020649268055644875898065859067283364263854539844247184631056742135225888317998068778914186911667407136926402198698403613411154563165454296275367785026774041382508644946676942515004677436767624046222767664746201011379506431189993445804684702912538163357484260995193685279580765406395662271491475759748808976915630334477960975171962949042380347603452244378527351386385921518590041036985320472871495081655889905472522648054513840579376500600442542251144635218019500062797127184897286144742495136196514099435411479692560327483292240598279751160649737192528865312951775893228281374916335828528831819585314118908254537207518605331121697330907227074654114059835394586337381217759784695802972237130859767522609493686668635752760604346571189125190820873950147994985121129070467121100206689631180445482570191035924199033000813995444404915627673353132867460530188387812290891211142631668677734937581952032002778158193263050502284585209724948696458381161004039634644527193903466410852611418220583056565123723758442091369996510918688551311615391408450685585426441490489699805864520016513174010341340961738292956454098713861345727093085727442596693338194686557412440538059952693941610211240866926279057463986110094814191397116927225771370559748474257193096065300954875565121907736367453705329146318734433197113282427561825215046314387576084830832786305691588572458796263244794771431322078646117543586307080688491528476415934823636543691583766519349146726249882564038607592743448846582424407523313821335970248397624768540273736911954027188055978620440998790776298291037558427319976266602755417910674480264306431625898105655017739510103731193546135044619302102856452998815482382434659248686643859451370967608779034397664147246066138157503251361070197201594673284319098445403071381590852102247198494334788084437021460736626998369094634192336129866604320954097775838017328140293578290046698793582879477851249936462157665294625511847104885302825836997566705141520305470785860496222052673735758295410138145223078107632510832974967543348621933969226122330993384474856974482122057595268105167369043988625326921360630223604458476160766985612543783314918035859438004346682762652247647335282484215037794807948205968568603611115535561394334723880746870736590530541534799004917720808877397400313280267713120849041628789404467494725625088988545651217782016496853883785520894671810230875213725173592289997249888196679347737438835457915581994584153379028920391317918978934218652457559336611893832461694160927566303749002461732133811323831193216796003480641652019117864430997655835770070907725196127918755689576923625612424519899236402696677843431453538124385106310805307049835047

/-- Precomputed packed MT19937 state literal mtTwist5489 (see the chunked
evaluation lemmas below). -/
def mtTwist5489 : Nat :=
  75909157475715134095639431649154596119557865844459610987265465316206536267757745780402389196383721185043332719210929786677366838334642199042702412309957818318549669370032925389893010759739750799434073240477075451715962988893678378406526706013818825798185397178563145211983585103792721337136203314522991770385805151616298702159661704649114359506295987438659169314756484625763673136489793491647806733027731180036529130543544940489484103304072458475841034835950059887649108956758834626838870124070944565471944625967299121556201628981636341988772077483080921246276254038421902688019588281056088262934601320863167082146491453397591582120740201508078417675262434864434746824095298758997025913746692515218121882213967537950003403136842794624224214516853954185208829215543727582816201382304938339998939890497449153717030199352427947278064848799765315099942403719450587429886584201953127681501000894743135524312731524403674939735411505409783459640555497678997533912644370624288892504227096697458265545129394665410426770449662233189977091844001714349448635463363923665551520875384245165666007528962162966446781750867875841024080948421707277949676945123084098170100072185483473471713776645454345436390446348695091986983162087789796461243204960924423928706542325796294638685107807141129504204104181893177948844364553645360411147517803415500340062976555333088343030842654641620029437870053561768722283449792730786432538672370508742994224878472187404327624351484776635107672042736814336609461009098976414507975554388205700878288816594581854182550712927174629168626131082109268977821563345309912264274503395276305962876521416993210260126800248112247212158498451893502118125589445024173626942323964827549604665747574716755244248943276753173416715957548099492834970426468666901749629592241465841653470026321784128571307809324340760054959218713625087332010056120467441830907730410797281763341126504110818420079262435486419152020587657433924595341116903299925151979665257164374333437959970937573896727950750712325078716009798332101872897978764397681615648050692746171641635378560312956603940643762543957739922753310083779883375733903686880664968284562249972442175458478630984401837729741868113876347531464201432126382034401356360940950059587863716326854188526406210206392341846078839964646154639798156672198294974274429171023807540569752354195874491897191981392133672119520409364174865624789911445088259739006785736350030316269497191840890335163766560090033743391678501210534495638190834788537910065807076581809710754009143615907671622164565672546643144248822207780378081890152164681761481327169729417541758314103844460786734544649392427424277280155062190505174684861937897123167443740993013763891526897381015195104149297089563272223109785873301822003339843929352201564359006125703918368556845729507807252993721922864799074687833202212943147444090012501444223874840387742916007459917057780801428456451740818898875187940315859240015372482387714650009441205216532459510435965880339414874664584624900708027044924675366002702577648489955227958321813296521356645685786925423172723077628327224483465222879254118143659822918234156100944646953414570961350181553379002680178932399615916315948562097777851910247030237078622184106032266776545806861115374416701780271805467584911007165449817846747798562611603013723127494774949104563015414804772200684552967170091217519494747277808964296495987875673263330443453369074222482939330062163384905892546801096242640666888406856461597964644335097494691418219341401012722662697180624613715935893456241968725585047643007994048814485691439734274203193154951201298122879842356418078443740747148027686666817685546297522535304855585302971502082279486018054768335868313050677585902445944545491892249658681912832059854800631004002943095448648310894808910588597278845386753629025392921374292323158503882512420266544189674568524602587811751847965939011551287477699187977447010322785047796299831202492725214240860249756412740946449390118418709281748410857498199381579254324608949800394678443063187449047721424425584423046873983192021328738706187738111031470641399334628361927903694917160477094011285884311416238612693026503628504853896574870983333447169910764612690362569307526893082092793592755882182776283224583184656539012586681267889288417527901350973242659887176740996455518469272365033238044453344745934080055313651381960011120321340189391342656797579849989609505048190738802672722217092925867000491907548634293687477717012172016256388889079660636317973566049111609167548390052894871672443769222411434581631238270315234226516701029679442083647273901779938907803373565250599518845898195457116808285083421148207179932330653940397712198653827282729836060730237334245394271253766616357394817738845219624401423427737157434850822359978295538581982827720162404680188582046359915668653841081360965033749549831813968972806151430146069704708175878473130113495813091406604340074403999644547290535276066313067964062189615557623005767820981718063887829527995359602678411396239285230611349966514904587840230558857030086748670498118433608295666556673759570611675261978658527052171056740949090289125399733177787854036774829632727051372179492272725425465862574650945780469984481841399668014097323476093619834263567289612308946296942515545392778018154872088661980831131904089621635015721654043340296257579217941199383052522237978167662744047736422246630075609671797664774960981308889878792274169128855621771283802460835879922565372270001858266897923934828253586487662472779452286068802998855590279259310161841265742157411889994430882852007369528569388635274189744144727666988786709777110222395079844524333072024563743831536304445655977081629357889227071202999807526721844401115828544633162495559934659056093596449661314639396179768333869545993917772737239963489488947258389298834442516436662179920275234864645577544884671557647010592852783861639824339473904774213663751296257514747130911607733239390211145305044392404674405078455809419535402568427455480331607068560082911359006420065383173404978499174786602563769142540839


/-! ### Concrete states for the scenario theorems -/

/-- A script environment with an empty registry. -/
def env0 : ScriptEnv := ⟨fun _ => none, fun _ => none⟩

/-- An empty player field with the 7 monster-zone and 8 spell/trap-zone
slots of the Rust fixed arrays. -/
def empty_pf : PlayerField :=
  ⟨[], [], [], [], [], List.replicate 7 none, List.replicate 8 none⟩

/-- A duel state with no cards, a fresh field and a single Turn unit, as
built by Duel::new (the RNG state is irrelevant to the processor claims
and is left trivial). -/
def c2_st : DuelData :=
  ⟨[], ⟨empty_pf, empty_pf⟩, ⟨0, 0⟩, [], [⟨.turn, 0, 0, 0⟩], 0, 0, 0, (8000, 8000), [], [], 0⟩

/-- The SelectChain step-1 scenario state: one triggered effect with id 42,
response already set to 42, empty chain. -/
def c4_st : DuelData :=
  ⟨[], ⟨empty_pf, empty_pf⟩, ⟨0, 0⟩, [], [⟨.selectChain, 1, 0, 0⟩], 0, 0, 0, (8000, 8000), [],
    [42], 42⟩

/-- The same scenario with response 0 (a pass). -/
def c4_pass : DuelData :=
  ⟨[], ⟨empty_pf, empty_pf⟩, ⟨0, 0⟩, [], [⟨.selectChain, 1, 0, 0⟩], 0, 0, 0, (8000, 8000), [],
    [42], 0⟩

/-- A state with one registered effect of code 5 and no condition callback,
used to exercise raise_event. -/
def c1_st : DuelData :=
  ⟨[], ⟨empty_pf, empty_pf⟩, ⟨0, 0⟩, [], [], 0, 0, 0, (8000, 8000),
    [⟨0, 0, 0, 5, 0, 0, 0, none, none, none, none⟩], [], 0⟩

/-- A state for the move-into-occupied-slot scenario: card 0 sits in
player 0's monster-zone slot 0 and card 1 in player 0's hand. -/
def c3_st : DuelData :=
  ⟨[⟨100, 0, 0, LOCATION_MZONE, 0, 0, 0, []⟩, ⟨200, 0, 0, LOCATION_HAND, 0, 0, 0, []⟩],
    ⟨{ empty_pf with hand := [1],
                     mzone := (List.replicate 7 (none : Option Nat)).set 0 (some 0) }, empty_pf⟩,
    ⟨0, 0⟩, [], [], 0, 0, 0, (8000, 8000), [], [], 0⟩

/-- The spell/trap-zone variant of the occupied-slot scenario: card 0 sits
in player 0's spell/trap-zone slot 0 and card 1 in player 0's hand. -/
def c3s_st : DuelData :=
  ⟨[⟨100, 0, 0, LOCATION_SZONE, 0, 0, 0, []⟩, ⟨200, 0, 0, LOCATION_HAND, 0, 0, 0, []⟩],
    ⟨{ empty_pf with hand := [1],
                     szone := (List.replicate 8 (none : Option Nat)).set 0 (some 0) }, empty_pf⟩,
    ⟨0, 0⟩, [], [], 0, 0, 0, (8000, 8000), [], [], 0⟩

/-- A state for the summon-overwrites-slot-0 scenario: card 0 occupies
monster-zone slot 0 (slot 1 is the free slot reported by
find_empty_mzone_slot) and card 1 is in hand. -/
def c10_st : DuelData := c3_st

/-- A packed MT19937 state whose first ten words are 1 (each tempering to
4194449), used as a concrete RNG state whose draws never hit the
rejection bound. -/
def wit_mt : Nat := ((1 <<< 320) - 1) / ((1 <<< 32) - 1)

/-- A script environment whose condition registry key 7 holds a callback
that raises a script error. -/
def c8_env : ScriptEnv :=
  ⟨fun k => if k = 7 then some (fun _ => .error ()) else none, fun _ => none⟩

/-- A state with two effects of code 5: effect 0 has the erroring condition
key 7, effect 1 has no condition. -/
def c8_st : DuelData :=
  ⟨[], ⟨empty_pf, empty_pf⟩, ⟨0, 0⟩, [], [], 0, 0, 0, (8000, 8000),
    [⟨0, 0, 0, 5, 0, 0, 0, some 7, none, none, none⟩,
     ⟨1, 0, 0, 5, 0, 0, 0, none, none, none, none⟩], [], 0⟩

/-! ### Helper lemmas for the RNG theorems -/

/-- Splitting the seeding loop: running m + n steps equals running m steps
and then n steps from where they left off. -/
theorem mt_init_aux_add (m n i a : Nat) :
    mt_init_aux (m + n) i a = mt_init_aux n (i + m) (mt_init_aux m i a) := by
  induction m generalizing i a with
  | zero => simp [mt_init_aux]
  | succ m ih =>
    rw [show m + 1 + n = (m + n) + 1 from by omega]
    show mt_init_aux (m + n) (i + 1) _ = _
    rw [ih]
    show mt_init_aux n (i + 1 + m) _ = mt_init_aux n (i + (m + 1)) _
    rw [show i + 1 + m = i + (m + 1) from by omega]
    rfl

/-- A generator whose index has reached 624 behaves like the regenerated
state at index 0. -/
theorem gen_u32_regen (a : Nat) : gen_u32 ⟨a, mtN⟩ = gen_u32 ⟨twist a, 0⟩ := rfl

theorem gen_seq_regen (n a : Nat) : gen_seq (n + 1) ⟨a, mtN⟩ = gen_seq (n + 1) ⟨twist a, 0⟩ := by
  simp only [gen_seq, gen_u32_regen]

set_option maxRecDepth 40000 in
/-- The packed state after the first 311 seeding steps. -/
theorem mt_init_chunk1 : mt_init_aux 311 1 (aset 0 0 (u32 5489)) = mtMid5489 := by decide

set_option maxRecDepth 40000 in
/-- The packed state after the remaining 312 seeding steps. -/
theorem mt_init_chunk2 : mt_init_aux 312 312 mtMid5489 = mtInit5489 := by decide

/-- The fully seeded packed state for seed 5489. -/
theorem mt_init_5489 : mt_init 5489 = mtInit5489 := by
  rw [mt_init, show mtN - 1 = 311 + 312 from rfl, mt_init_aux_add, mt_init_chunk1]
  simpa using mt_init_chunk2

set_option maxRecDepth 40000 in
/-- The packed state after the first twist loop. -/
theorem twist_chunk1 : twist_loop1 227 0 mtInit5489 = mtTw1_5489 := by decide

set_option maxRecDepth 40000 in
/-- The packed state after the second twist loop. -/
theorem twist_chunk2 : twist_loop2 396 227 mtTw1_5489 = mtTw2_5489 := by decide

set_option maxRecDepth 40000 in
/-- The fully twisted packed state for seed 5489. -/
theorem twist_5489 : twist mtInit5489 = mtTwist5489 := by
  rw [twist, show mtN - mtM = 227 from rfl, show mtM - 1 = 396 from rfl, twist_chunk1,
    twist_chunk2]
  decide

set_option maxRecDepth 40000 in
/-- Claim C5: the RNG seeded with 5489 produces, as its first ten
gen_u32 outputs, exactly the ten reference words of C++ std::mt19937. -/
theorem mt19937_seed5489_first_ten :
    gen_seq 10 (Mt19937.new 5489) =
      [3499211612, 581869302, 3890346734, 3586334585, 545404204,
       4161255391, 3922919429, 949333985, 2715962298, 1323567403] := by
  show gen_seq 10 ⟨mt_init 5489, mtN⟩ = _
  rw [mt_init_5489, gen_seq_regen, twist_5489]
  decide

/-! ### C6: the unbiased ranged draw -/

/-- Claim C6: whenever get_next_integer returns a value for min ≤ max, the
value lies in the inclusive interval [min, max], and the bound it rejects
below, (2^32 - range) mod range, equals 2^32 mod range. -/
theorem get_next_integer_in_range (mn mx fuel : Nat) (s : Mt19937) (v : Nat)
    (hle : mn ≤ mx) (hmx : mx < 4294967296)
    (hv : (get_next_integer fuel s mn mx).map Prod.fst = some v) :
    (mn ≤ v ∧ v ≤ mx) ∧
      (4294967296 - (mx - mn + 1)) % (mx - mn + 1) = 4294967296 % (mx - mn + 1) := by
  have hr : mx - mn + 1 ≤ 4294967296 := by omega
  unfold get_next_integer at hv
  by_cases h0 : u32 (mx - mn + 1) = 0
  · simp [h0] at hv
  · have hlt : mx - mn + 1 < 4294967296 := by
      rcases Nat.lt_or_ge (mx - mn + 1) 4294967296 with h | h
      · exact h
      · exfalso
        have : mx - mn + 1 = 4294967296 := by omega
        exact h0 (by simp [u32, this])
    have hrange : u32 (mx - mn + 1) = mx - mn + 1 := Nat.mod_eq_of_lt hlt
    simp only [if_neg h0] at hv
    rcases hda : draw_above ((4294967296 - u32 (mx - mn + 1)) % u32 (mx - mn + 1)) fuel s with
      _ | p
    · rw [hda] at hv; simp at hv
    · rw [hda] at hv
      simp only [Option.map_some', Option.some.injEq] at hv
      have hmod : p.1 % (mx - mn + 1) < mx - mn + 1 := Nat.mod_lt _ (by omega)
      rw [hrange] at hv
      constructor
      · omega
      · have hcan : 4294967296 - (mx - mn + 1) + (mx - mn + 1) = 4294967296 :=
          Nat.sub_add_cancel hr
        calc (4294967296 - (mx - mn + 1)) % (mx - mn + 1)
            = ((4294967296 - (mx - mn + 1)) + (mx - mn + 1)) % (mx - mn + 1) :=
              (Nat.add_mod_right _ _).symm
          _ = 4294967296 % (mx - mn + 1) := by rw [hcan]

/-- Witness for C6 at min 3, max 7, one draw from a concrete state. -/
theorem get_next_integer_in_range_witness :
    ((3 ≤ 7 ∧ 7 ≤ 7) ∧
      (4294967296 - (7 - 3 + 1)) % (7 - 3 + 1) = 4294967296 % (7 - 3 + 1)) :=
  get_next_integer_in_range 3 7 1 ⟨wit_mt, 0⟩ 7 (by decide) (by decide) (by decide)

/-! ### C7: shuffle is a permutation -/

/-- Moving the element at index k of a list to the front, writing a in its
place, permutes a-consed-on: (t[k] :: t.set k a) ~ (a :: t). -/
theorem cons_set_perm : ∀ (t : List Nat) (k a b : Nat), t.get? k = some b →
    (b :: t.set k a).Perm (a :: t)
  | [], k, _, _, h => by simp at h
  | x :: s, 0, a, b, h => by
    simp only [List.get?_cons_zero, Option.some.injEq] at h
    subst h
    exact List.Perm.swap a x s
  | x :: s, k+1, a, b, h => by
    simp only [List.get?_cons_succ] at h
    exact ((List.Perm.swap b x _).symm.trans
      (((cons_set_perm s k a b h).cons x).trans (List.Perm.swap a x s)))

/-- Exchanging two in-bounds entries of a list is a permutation. -/
theorem swap_set_perm : ∀ (l : List Nat) (i j a b : Nat), l.get? i = some a →
    l.get? j = some b → ((l.set i b).set j a).Perm l
  | [], i, _, _, _, hi, _ => by simp at hi
  | x :: t, 0, 0, a, b, hi, hj => by
    simp only [List.get?_cons_zero, Option.some.injEq] at hi hj
    subst hi; subst hj
    simp [List.set]
  | x :: t, 0, j+1, a, b, hi, hj => by
    simp only [List.get?_cons_zero, List.get?_cons_succ, Option.some.injEq] at hi hj
    subst hi
    exact cons_set_perm t j _ b hj
  | x :: t, i+1, 0, a, b, hi, hj => by
    simp only [List.get?_cons_zero, List.get?_cons_succ, Option.some.injEq] at hi hj
    subst hj
    exact cons_set_perm t i _ a hi
  | x :: t, i+1, j+1, a, b, hi, hj => by
    simp only [List.get?_cons_succ] at hi hj
    exact (swap_set_perm t i j a b hi hj).cons x

/-- A successful swap_step permutes the list. -/
theorem swap_step_perm (v v2 : List Nat) (i r : Nat) (h : swap_step v i r = some v2) :
    v2.Perm v := by
  unfold swap_step at h
  rcases hgi : v.get? i with _ | a <;> rcases hgr : v.get? r with _ | b <;>
    rw [hgi, hgr] at h <;> simp at h
  rw [← h]
  exact swap_set_perm v i r a b hgi hgr

/-- Every successful run of the shuffle loop permutes its input. -/
theorem shuffle_steps_perm : ∀ (n dfuel i lastm1 : Nat) (s : Mt19937) (v : List Nat)
    (out : List Nat × Mt19937), shuffle_steps dfuel n i lastm1 s v = some out → out.1.Perm v
  | 0, dfuel, i, lastm1, s, v, out, h => by
    simp only [shuffle_steps, Option.some.injEq] at h
    rw [← h]
  | n+1, dfuel, i, lastm1, s, v, out, h => by
    rcases hd : get_next_integer dfuel s i lastm1 with _ | p
    · simp [shuffle_steps, hd] at h
    · rcases hsw : swap_step v i p.1 with _ | v2
      · simp [shuffle_steps, hd, hsw] at h
      · simp only [shuffle_steps, hd, hsw] at h
        exact (shuffle_steps_perm n dfuel (i+1) lastm1 p.2 v2 out h).trans
          (swap_step_perm v v2 i p.1 hsw)

/-- Claim C7: shuffle_vector produces a permutation of its input (the
multiset of elements is preserved); the embedding realizes it by swapping
index i with the index drawn by get_next_integer(i, last-1) for each i
from first to last-2, one ranged draw per step in that order. -/
theorem shuffle_vector_perm (dfuel : Nat) (s : Mt19937) (v : List Nat)
    (first last : Nat) (v2 : List Nat)
    (h : (shuffle_vector dfuel s v first last).map Prod.fst = some v2) : v2.Perm v := by
  unfold shuffle_vector at h
  rcases hss : shuffle_steps dfuel ((Nat.min last v.length - 1) - first) first
      (Nat.min last v.length - 1) s v with _ | out
  · rw [hss] at h; simp at h
  · rw [hss] at h
    simp only [Option.map_some', Option.some.injEq] at h
    rw [← h]
    exact shuffle_steps_perm _ _ _ _ _ _ _ hss

/-- Witness for C7: a three-card shuffle from a concrete state whose two
draws move the first card to the back. -/
theorem shuffle_vector_perm_witness : List.Perm [30, 10, 20] [10, 20, 30] :=
  shuffle_vector_perm 1 ⟨wit_mt, 0⟩ [10, 20, 30] 0 3 [30, 10, 20] (by decide)

/-! ### C1 and C8: raise_event, snapshots and condition errors -/

/-- Every link produced by the trigger loop is a snapshot link mk_link e
for some candidate e of the scanned list. -/
theorem raise_loop_links (env : ScriptEnv) (eff : List Effect) (ec : Option (List Nat))
    (rp : Nat) (re : Option Nat) : ∀ (cands : List Nat) (l : ChainLink),
    l ∈ (raise_loop env eff ec rp re cands).2 → ∃ e ∈ cands, l = mk_link e ec rp re
  | [], l, h => by simp [raise_loop] at h
  | c :: rest, l, h => by
    simp only [raise_loop] at h
    by_cases hc : cond_result env eff c (get_lua_args c rp ec rp re)
    · rw [if_pos hc] at h
      rcases List.mem_cons.mp h with h | h
      · exact ⟨c, List.mem_cons_self c rest, h⟩
      · rcases raise_loop_links env eff ec rp re rest l h with ⟨x, hx, hl⟩
        exact ⟨x, List.mem_cons_of_mem c hx, hl⟩
    · rw [if_neg hc] at h
      rcases raise_loop_links env eff ec rp re rest l h with ⟨x, hx, hl⟩
      exact ⟨x, List.mem_cons_of_mem c hx, hl⟩

/-- Every id collected by the trigger loop is one of the scanned
candidates. -/
theorem raise_loop_triggered_sub (env : ScriptEnv) (eff : List Effect)
    (ec : Option (List Nat)) (rp : Nat) (re : Option Nat) : ∀ (cands : List Nat) (e : Nat),
    e ∈ (raise_loop env eff ec rp re cands).1 → e ∈ cands
  | [], e, h => by simp [raise_loop] at h
  | c :: rest, e, h => by
    simp only [raise_loop] at h
    by_cases hc : cond_result env eff c (get_lua_args c rp ec rp re)
    · rw [if_pos hc] at h
      rcases List.mem_cons.mp h with h | h
      · simp [h]
      · exact List.mem_cons_of_mem c (raise_loop_triggered_sub env eff ec rp re rest e h)
    · rw [if_neg hc] at h
      exact List.mem_cons_of_mem c (raise_loop_triggered_sub env eff ec rp re rest e h)

/-- Claim C1 (amended): for every chain link created during raise_event,
the tuple rebuilt at resolution equals the tuple delivered to the
condition except in the trigger-player slot, which the link stores as 0
while the condition received reason_player; the two tuples coincide
exactly when reason_player = 0. -/
theorem chain_link_snapshot (env : ScriptEnv) (st : DuelData) (code : Nat)
    (ec : Option (List Nat)) (rp : Nat) (re : Option Nat) (l : ChainLink)
    (hl : l ∈ (raise_event env st code ec rp re).chain) (hnew : l ∉ st.chain) :
    resolve_args l = { get_lua_args l.effect_id rp ec rp re with tp := 0 } ∧
      (rp = 0 → resolve_args l = get_lua_args l.effect_id rp ec rp re) := by
  have hmem : l ∈ (raise_loop env st.effects ec rp re
      (get_matching_effects st.effects code)).2 := by
    simp only [raise_event, List.mem_append] at hl
    rcases hl with h | h
    · exact absurd h hnew
    · exact h
  rcases raise_loop_links env st.effects ec rp re _ l hmem with ⟨e, _, hlink⟩
  subst hlink
  constructor
  · rfl
  · intro h0; subst h0; rfl

/-- Counterexample for C1 as stated: raising an event with reason player 1
for an unconditioned effect of code 5 creates a link whose resolution
tuple differs from the condition tuple (its trigger-player slot is 0, not
1). -/
theorem chain_link_snapshot_counterexample :
    ((raise_event env0 c1_st 5 none 1 none).chain.head?).map resolve_args ≠
      ((raise_event env0 c1_st 5 none 1 none).chain.head?).map
        (fun l => get_lua_args l.effect_id 1 none 1 none) := by decide

/-- Witness for C1 (amended): the link created by the concrete event of
the counterexample resolves with the condition tuple whose trigger-player
slot is zeroed. -/
theorem chain_link_snapshot_witness :
    resolve_args (mk_link 0 none 1 none) =
      { get_lua_args (mk_link 0 none 1 none).effect_id 1 none 1 none with tp := 0 } :=
  (chain_link_snapshot env0 c1_st 5 none 1 none (mk_link 0 none 1 none)
    (by decide) (by decide)).1

/-- With an erroring condition, the trigger loop behaves as if the
candidate were absent. -/
theorem raise_loop_filter_err (env : ScriptEnv) (eff : List Effect)
    (ec : Option (List Nat)) (rp : Nat) (re : Option Nat) (eid : Nat)
    (f : LuaArgs → Except Unit Bool)
    (hc : ((eff.get? eid).bind Effect.condition).bind env.condFn = some f)
    (he : f (get_lua_args eid rp ec rp re) = .error ()) :
    ∀ cands : List Nat, raise_loop env eff ec rp re cands =
      raise_loop env eff ec rp re (cands.filter (fun x => x != eid))
  | [] => rfl
  | c :: rest => by
    by_cases hce : c = eid
    · subst hce
      have hfalse : cond_result env eff c (get_lua_args c rp ec rp re) = false := by
        unfold cond_result
        rw [hc]
        simp [he]
      simp only [raise_loop, hfalse, if_false, Bool.false_eq_true, List.filter_cons,
        bne_self_eq_false]
      exact raise_loop_filter_err env eff ec rp re c f hc he rest
    · have hbne : (c != eid) = true := by simp [hce]
      simp only [raise_loop, List.filter_cons, hbne, if_true]
      rw [raise_loop_filter_err env eff ec rp re eid f hc he rest]

/-- Claim C8: a condition callback that raises a script error resolves as
not triggered; the effect is appended neither to triggered_effects nor to
the chain, and the remaining candidates are processed exactly as if the
erroring one were absent. -/
theorem condition_error_not_triggered (env : ScriptEnv) (st : DuelData) (code : Nat)
    (ec : Option (List Nat)) (rp : Nat) (re : Option Nat) (eid : Nat)
    (f : LuaArgs → Except Unit Bool)
    (hc : ((st.effects.get? eid).bind Effect.condition).bind env.condFn = some f)
    (he : f (get_lua_args eid rp ec rp re) = .error ()) :
    (eid ∈ (raise_event env st code ec rp re).triggered_effects ↔
      eid ∈ st.triggered_effects) ∧
    (∀ l ∈ (raise_event env st code ec rp re).chain, l ∈ st.chain ∨ l.effect_id ≠ eid) ∧
    raise_loop env st.effects ec rp re (get_matching_effects st.effects code) =
      raise_loop env st.effects ec rp re
        ((get_matching_effects st.effects code).filter (fun x => x != eid)) := by
  have hfilter := raise_loop_filter_err env st.effects ec rp re eid f hc he
    (get_matching_effects st.effects code)
  refine ⟨?_, ?_, hfilter⟩
  · simp only [raise_event, List.mem_append]
    constructor
    · rintro (h | h)
      · exact h
      · exfalso
        rw [hfilter] at h
        have := raise_loop_triggered_sub env st.effects ec rp re _ eid h
        simp at this
    · intro h; exact Or.inl h
  · intro l hl
    simp only [raise_event, List.mem_append] at hl
    rcases hl with h | h
    · exact Or.inl h
    · rw [hfilter] at h
      rcases raise_loop_links env st.effects ec rp re _ l h with ⟨e, he2, hlink⟩
      simp only [List.mem_filter, bne_iff_ne, ne_eq] at he2
      right
      rw [hlink]
      simpa [mk_link] using he2.2

/-- Witness for C8: effect 0 of the concrete state has condition key 7,
whose callback errors; effect 1 (same code, no condition) still triggers. -/
theorem condition_error_not_triggered_witness :
    (0 ∈ (raise_event c8_env c8_st 5 none 0 none).triggered_effects ↔
      0 ∈ c8_st.triggered_effects) ∧
    (∀ l ∈ (raise_event c8_env c8_st 5 none 0 none).chain,
      l ∈ c8_st.chain ∨ l.effect_id ≠ 0) ∧
    raise_loop c8_env c8_st.effects none 0 none (get_matching_effects c8_st.effects 5) =
      raise_loop c8_env c8_st.effects none 0 none
        ((get_matching_effects c8_st.effects 5).filter (fun x => x != 0)) :=
  condition_error_not_triggered c8_env c8_st 5 none 0 none 0 (fun _ => .error ()) rfl rfl

/-! ### C2 and C4: the processor step -/

/-- Claim C2 (amended): dispatching a front Turn unit pops it, pushes
PhaseEvent(DRAW) at the front and returns Continue, leaving every other
component of the state - in particular the turn counter, the turn player
and the RNG - unchanged; no RNG draw is consumed and the turn counter is
not incremented. -/
theorem process_turn_unit (env : ScriptEnv) (rfuel : Nat) (st : DuelData)
    (s a1 a2 : Nat) (rest : List ProcessorUnit)
    (hchain : st.chain = []) (hunits : st.processor_units = ⟨.turn, s, a1, a2⟩ :: rest) :
    process env rfuel st =
      ({ st with processor_units := ⟨.phaseEvent, 0, PHASE_DRAW, 0⟩ :: rest }, .Continue) := by
  unfold process
  rw [hchain, hunits]
  rfl

/-- Counterexample for C2 as stated: from the initial state (turn 0, front
Turn unit), one process step leaves the turn counter at 0 (not 1), flips
no turn player and consumes no RNG word. -/
theorem process_turn_counterexample :
    (process env0 0 c2_st).1.turn = 0 ∧ ¬((process env0 0 c2_st).1.turn = c2_st.turn + 1) ∧
    (process env0 0 c2_st).1.random = c2_st.random ∧
    (process env0 0 c2_st).1.turn_player = c2_st.turn_player := by decide

/-- Witness for C2 (amended) at the initial state. -/
theorem process_turn_unit_witness :
    process env0 0 c2_st =
      ({ c2_st with processor_units := [⟨.phaseEvent, 0, PHASE_DRAW, 0⟩] }, .Continue) :=
  process_turn_unit env0 0 c2_st 0 0 0 [] rfl rfl

/-- Claim C4 (amended): SelectChain is a two-step interactive unit.  Step 0
advances the unit to step 1 and returns Waiting.  Step 1 reads the
response; it clears triggered_effects, resets the response to 0, pops the
unit and pushes SolveChain exactly when the response is non-zero and
matches a triggered effect id, otherwise PhaseEvent(MAIN1) - but no chain
link is ever built: the chain is left unchanged (empty). -/
theorem process_select_chain (env : ScriptEnv) (rfuel : Nat) (st : DuelData)
    (s a1 a2 : Nat) (rest : List ProcessorUnit)
    (hchain : st.chain = [])
    (hunits : st.processor_units = ⟨.selectChain, s, a1, a2⟩ :: rest) :
    (s = 0 → process env rfuel st =
      ({ st with processor_units := ⟨.selectChain, 1, a1, a2⟩ :: rest }, .Waiting)) ∧
    (s = 1 → process env rfuel st =
      ({ st with triggered_effects := [], response := 0,
                 processor_units :=
            (if st.response ≠ 0 ∧
                st.triggered_effects.any (fun e => e == i32_as_u32 st.response) = true
             then ProcessorUnit.mk .solveChain 0 0 0
             else ProcessorUnit.mk .phaseEvent 0 PHASE_MAIN1 0) :: rest }, .Continue) ∧
      (process env rfuel st).1.chain = []) := by
  refine ⟨?_, ?_⟩
  · intro hs; subst hs
    unfold process
    rw [hchain, hunits]
    rfl
  · intro hs; subst hs
    have hmain : process env rfuel st =
        ({ st with triggered_effects := [], response := 0,
                   processor_units :=
              (if st.response ≠ 0 ∧
                  st.triggered_effects.any (fun e => e == i32_as_u32 st.response) = true
               then ProcessorUnit.mk .solveChain 0 0 0
               else ProcessorUnit.mk .phaseEvent 0 PHASE_MAIN1 0) :: rest }, .Continue) := by
      unfold process
      rw [hchain, hunits]
      by_cases hr : st.response = 0
      · simp [hr]
      · by_cases ha : st.triggered_effects.any (fun e => e == i32_as_u32 st.response)
        · simp [hr, ha]
        · simp [hr, ha]
    refine ⟨hmain, ?_⟩
    rw [hmain]
    exact hchain

/-- Counterexample for C4 as stated: with one triggered effect of id 42
and response 42, the step pushes a SolveChain yet adds nothing to the
chain - the chain is empty before and after, contradicting that the
matched effect is added to the chain and that SolveChain is pushed only
when a chain was built. -/
theorem process_select_chain_counterexample :
    (process env0 0 c4_st).1.processor_units = [⟨.solveChain, 0, 0, 0⟩] ∧
    (process env0 0 c4_st).1.chain = [] ∧ c4_st.chain = [] ∧
    (process env0 0 c4_st).2 = .Continue := by decide

/-- Witness for C4 (amended): the pass scenario (response 0) clears the
triggers and advances to MAIN1. -/
theorem process_select_chain_witness :
    process env0 0 c4_pass =
      ({ c4_pass with triggered_effects := [], response := 0,
                      processor_units :=
            (if (c4_pass.response ≠ 0 ∧
                c4_pass.triggered_effects.any
                  (fun e => e == i32_as_u32 c4_pass.response) = true)
             then ProcessorUnit.mk .solveChain 0 0 0
             else ProcessorUnit.mk .phaseEvent 0 PHASE_MAIN1 0) :: [] }, .Continue) ∧
    (process env0 0 c4_pass).1.chain = [] :=
  (process_select_chain env0 0 c4_pass 1 0 0 [] rfl rfl).2 rfl

/-! ### C3 and C10: zone moves, sequence-0 insertion and overwriting -/

/-- Removal by index preserves the monster-zone array length. -/
theorem remove_card_mzone_length (pf : PlayerField) (loc sq : Nat) :
    ((pf.remove_card loc sq).2).mzone.length = pf.mzone.length := by
  unfold PlayerField.remove_card
  repeat' split
  all_goals simp [List.length_set]

/-- Removal from a stack leaves the monster-zone array untouched. -/
theorem remove_from_stack_mzone (pf : PlayerField) (loc c : Nat) :
    ((pf.remove_card_from_stack loc c).2).mzone = pf.mzone := by
  unfold PlayerField.remove_card_from_stack
  repeat' split
  all_goals rfl

/-- The removal step of a move preserves the monster-zone array length of
the removing player. -/
theorem remove_current_mzone_length (fld : Field) (c : Card) (cid : Nat) :
    ((remove_current fld c cid).2).mzone.length = ((fld.getP c.controller)).mzone.length := by
  unfold remove_current
  split
  · exact remove_card_mzone_length _ _ _
  · rw [remove_from_stack_mzone]

theorem getP_setP_self (f : Field) (p : Nat) (pf : PlayerField) :
    (f.setP p pf).getP p = pf := by
  unfold Field.getP Field.setP
  by_cases hp : p = 0 <;> simp [hp]

theorem getP_setP_mzone_length (f : Field) (p q : Nat) (pf : PlayerField)
    (h : pf.mzone.length = (f.getP q).mzone.length) :
    ((f.setP q pf).getP p).mzone.length = (f.getP p).mzone.length := by
  simp only [Field.getP, Field.setP] at h ⊢
  by_cases hq : q = 0 <;> by_cases hp : p = 0 <;> simp_all

/-- Adding a card to the monster zone writes the slot at the target
sequence. -/
theorem add_card_mzone_get (pf : PlayerField) (cid sq : Nat) (h : sq < pf.mzone.length) :
    ((pf.add_card LOCATION_MZONE cid sq)).mzone.get? sq = some (some cid) := by
  unfold PlayerField.add_card
  simp only [show loc_contains LOCATION_MZONE LOCATION_DECK = false from rfl,
    show loc_contains LOCATION_MZONE LOCATION_HAND = false from rfl,
    show loc_contains LOCATION_MZONE LOCATION_GRAVE = false from rfl,
    show loc_contains LOCATION_MZONE LOCATION_REMOVED = false from rfl,
    show loc_contains LOCATION_MZONE LOCATION_EXTRA = false from rfl,
    show loc_contains LOCATION_MZONE LOCATION_MZONE = true from rfl,
    Bool.false_eq_true, if_false, if_true]
  rw [if_pos h]
  exact List.get?_set_eq_of_lt _ h

/-- Removal by index preserves the spell/trap-zone array length. -/
theorem remove_card_szone_length (pf : PlayerField) (loc sq : Nat) :
    ((pf.remove_card loc sq).2).szone.length = pf.szone.length := by
  unfold PlayerField.remove_card
  repeat' split
  all_goals simp [List.length_set]

/-- Removal from a stack leaves the spell/trap-zone array untouched. -/
theorem remove_from_stack_szone (pf : PlayerField) (loc c : Nat) :
    ((pf.remove_card_from_stack loc c).2).szone = pf.szone := by
  unfold PlayerField.remove_card_from_stack
  repeat' split
  all_goals rfl

/-- The removal step of a move preserves the spell/trap-zone array length
of the removing player. -/
theorem remove_current_szone_length (fld : Field) (c : Card) (cid : Nat) :
    ((remove_current fld c cid).2).szone.length = ((fld.getP c.controller)).szone.length := by
  unfold remove_current
  split
  · exact remove_card_szone_length _ _ _
  · rw [remove_from_stack_szone]

theorem getP_setP_szone_length (f : Field) (p q : Nat) (pf : PlayerField)
    (h : pf.szone.length = (f.getP q).szone.length) :
    ((f.setP q pf).getP p).szone.length = (f.getP p).szone.length := by
  simp only [Field.getP, Field.setP] at h ⊢
  by_cases hq : q = 0 <;> by_cases hp : p = 0 <;> simp_all

/-- Adding a card to the spell/trap zone writes the slot at the target
sequence. -/
theorem add_card_szone_get (pf : PlayerField) (cid sq : Nat) (h : sq < pf.szone.length) :
    ((pf.add_card LOCATION_SZONE cid sq)).szone.get? sq = some (some cid) := by
  unfold PlayerField.add_card
  simp only [show loc_contains LOCATION_SZONE LOCATION_DECK = false from rfl,
    show loc_contains LOCATION_SZONE LOCATION_HAND = false from rfl,
    show loc_contains LOCATION_SZONE LOCATION_GRAVE = false from rfl,
    show loc_contains LOCATION_SZONE LOCATION_REMOVED = false from rfl,
    show loc_contains LOCATION_SZONE LOCATION_EXTRA = false from rfl,
    show loc_contains LOCATION_SZONE LOCATION_MZONE = false from rfl,
    show loc_contains LOCATION_SZONE LOCATION_SZONE = true from rfl,
    Bool.false_eq_true, if_false, if_true]
  rw [if_pos h]
  exact List.get?_set_eq_of_lt _ h

/-- A successful find_empty_slot_aux scan returns an index below the end
of the scanned list. -/
theorem find_empty_slot_aux_lt : ∀ (l : List (Option Nat)) (i k : Nat),
    find_empty_slot_aux l i = some k → k < i + l.length
  | [], i, k, h => by simp [find_empty_slot_aux] at h
  | none :: t, i, k, h => by
    simp only [find_empty_slot_aux, Option.some.injEq] at h
    subst h
    simp
  | some x :: t, i, k, h => by
    simp only [find_empty_slot_aux] at h
    have := find_empty_slot_aux_lt t (i + 1) k h
    simp only [List.length_cons]
    omega

/-- Reading back the updated index of update_card. -/
theorem update_card_get (l : List Card) (i : Nat) (f : Card → Card) :
    (update_card l i f).get? i = (l.get? i).map f := by
  unfold update_card
  rcases hg : l.get? i with _ | c
  · simp only [hg, Option.map_none']
  · have hlt : i < l.length := (List.get?_eq_some.mp hg).1
    simp only [hg, Option.map_some']
    rw [List.get?_set_eq_of_lt (f c) hlt]

/-- Claim C3 (amended): a successful move_card_internal into a monster-zone
or spell/trap-zone slot writes the moved card into that slot - also when
the slot was already occupied by another card, which is overwritten (the
claimed failure with an unchanged state does not happen). -/
theorem move_card_overwrites :
    (∀ (st : DuelData) (cid tp sq : Nat) (out : Bool × DuelData), tp < 2 →
      sq < ((st.field.getP tp).mzone).length →
      move_card_internal st cid tp LOCATION_MZONE sq = out → out.1 = true →
      ((out.2.field.getP tp).mzone).get? sq = some (some cid)) ∧
    (∀ (st : DuelData) (cid tp sq : Nat) (out : Bool × DuelData), tp < 2 →
      sq < ((st.field.getP tp).szone).length →
      move_card_internal st cid tp LOCATION_SZONE sq = out → out.1 = true →
      ((out.2.field.getP tp).szone).get? sq = some (some cid)) := by
  constructor
  · intro st cid tp sq out hp hseq h hok
    unfold move_card_internal at h
    rcases hg : st.get_card cid with _ | c
    · rw [hg] at h
      rw [← h] at hok
      simp at hok
    · rw [hg] at h
      simp only at h
      rcases hr : (remove_current st.field c cid).1 with _ | w
      · rw [hr] at h
        rw [← h] at hok
        simp at hok
      · rw [hr] at h
        have hlen : (((st.field.setP c.controller
            (remove_current st.field c cid).2).getP tp).mzone).length =
            ((st.field.getP tp).mzone).length := by
          apply getP_setP_mzone_length
          exact remove_current_mzone_length st.field c cid
        rw [← h]
        simp only [show loc_contains LOCATION_MZONE LOCATION_DECK = false from rfl,
          show loc_contains LOCATION_MZONE LOCATION_HAND = false from rfl,
          show loc_contains LOCATION_MZONE LOCATION_GRAVE = false from rfl,
          show loc_contains LOCATION_MZONE LOCATION_REMOVED = false from rfl,
          show loc_contains LOCATION_MZONE LOCATION_EXTRA = false from rfl,
          Bool.false_eq_true, if_false]
        show (((st.field.setP c.controller (remove_current st.field c cid).2).add_card
          tp LOCATION_MZONE cid sq).getP tp).mzone.get? sq = some (some cid)
        unfold Field.add_card
        rw [getP_setP_self]
        apply add_card_mzone_get
        rw [hlen]
        exact hseq
  · intro st cid tp sq out hp hseq h hok
    unfold move_card_internal at h
    rcases hg : st.get_card cid with _ | c
    · rw [hg] at h
      rw [← h] at hok
      simp at hok
    · rw [hg] at h
      simp only at h
      rcases hr : (remove_current st.field c cid).1 with _ | w
      · rw [hr] at h
        rw [← h] at hok
        simp at hok
      · rw [hr] at h
        have hlen : (((st.field.setP c.controller
            (remove_current st.field c cid).2).getP tp).szone).length =
            ((st.field.getP tp).szone).length := by
          apply getP_setP_szone_length
          exact remove_current_szone_length st.field c cid
        rw [← h]
        simp only [show loc_contains LOCATION_SZONE LOCATION_DECK = false from rfl,
          show loc_contains LOCATION_SZONE LOCATION_HAND = false from rfl,
          show loc_contains LOCATION_SZONE LOCATION_GRAVE = false from rfl,
          show loc_contains LOCATION_SZONE LOCATION_REMOVED = false from rfl,
          show loc_contains LOCATION_SZONE LOCATION_EXTRA = false from rfl,
          Bool.false_eq_true, if_false]
        show (((st.field.setP c.controller (remove_current st.field c cid).2).add_card
          tp LOCATION_SZONE cid sq).getP tp).szone.get? sq = some (some cid)
        unfold Field.add_card
        rw [getP_setP_self]
        apply add_card_szone_get
        rw [hlen]
        exact hseq

/-- Counterexample for C3 as stated: moving card 1 from the hand into
monster-zone slot 0 (occupied by card 0) returns true and mutates the
state, overwriting the slot; the same happens for spell/trap-zone slot 0. -/
theorem move_card_occupied_counterexample :
    ((move_card_internal c3_st 1 0 LOCATION_MZONE 0).1 = true ∧
      ((move_card_internal c3_st 1 0 LOCATION_MZONE 0).2.field.getP 0).mzone.get? 0 =
        some (some 1) ∧
      (c3_st.field.getP 0).mzone.get? 0 = some (some 0) ∧
      ¬((move_card_internal c3_st 1 0 LOCATION_MZONE 0).2 = c3_st)) ∧
    ((move_card_internal c3s_st 1 0 LOCATION_SZONE 0).1 = true ∧
      ((move_card_internal c3s_st 1 0 LOCATION_SZONE 0).2.field.getP 0).szone.get? 0 =
        some (some 1) ∧
      (c3s_st.field.getP 0).szone.get? 0 = some (some 0) ∧
      ¬((move_card_internal c3s_st 1 0 LOCATION_SZONE 0).2 = c3s_st)) := by decide

/-- Witness for C3 (amended) at the two occupied-slot states. -/
theorem move_card_overwrites_witness :
    ((move_card_internal c3_st 1 0 LOCATION_MZONE 0).2.field.getP 0).mzone.get? 0 =
      some (some 1) ∧
    ((move_card_internal c3s_st 1 0 LOCATION_SZONE 0).2.field.getP 0).szone.get? 0 =
      some (some 1) :=
  ⟨move_card_overwrites.1 c3_st 1 0 0 (move_card_internal c3_st 1 0 LOCATION_MZONE 0)
      (by decide) (by decide) rfl (by decide),
    move_card_overwrites.2 c3s_st 1 0 0 (move_card_internal c3s_st 1 0 LOCATION_SZONE 0)
      (by decide) (by decide) rfl (by decide)⟩

/-- raise_event never touches the field. -/
theorem raise_event_field (env : ScriptEnv) (st : DuelData) (code : Nat)
    (ec : Option (List Nat)) (rp : Nat) (re : Option Nat) :
    (raise_event env st code ec rp re).field = st.field := rfl

/-- Claim C10: send_card_to always inserts at target sequence 0 - a
successful send to the monster zone writes slot 0 and records sequence 0
on the card - and consequently every successful Duel.Summon places the
card at monster-zone slot 0, whatever free slot find_empty_mzone_slot
reported, overwriting any card already in slot 0. -/
theorem send_card_to_seq_zero :
    (∀ (st : DuelData) (cid tp r : Nat) (out : Bool × DuelData), tp < 2 →
      0 < ((st.field.getP tp).mzone).length →
      send_card_to st cid tp LOCATION_MZONE r = out → out.1 = true →
      ((out.2.field.getP tp).mzone).get? 0 = some (some cid) ∧
      (out.2.get_card cid).map Card.sequence = some 0) ∧
    (∀ (env : ScriptEnv) (st : DuelData) (p cid k : Nat) (out : DuelData × Nat), p < 2 →
      (st.field.getP p).find_empty_mzone_slot = some k →
      summon env st p cid = out → out.2 = 1 →
      ((out.1.field.getP p).mzone).get? 0 = some (some cid)) := by
  have ha : ∀ (st : DuelData) (cid tp r : Nat) (out : Bool × DuelData), tp < 2 →
      0 < ((st.field.getP tp).mzone).length →
      send_card_to st cid tp LOCATION_MZONE r = out → out.1 = true →
      ((out.2.field.getP tp).mzone).get? 0 = some (some cid) ∧
      (out.2.get_card cid).map Card.sequence = some 0 := by
    intro st cid tp r out hp hlen0 h hok
    unfold send_card_to at h
    simp only [DuelData.get_card, update_card_get] at h
    rcases hg0 : st.cards.get? cid with _ | c0
    · rw [hg0] at h
      simp only [Option.map_none'] at h
      rw [← h] at hok
      simp at hok
    · rw [hg0] at h
      simp only [Option.map_some'] at h
      rcases hr : (remove_current st.field { c0 with reason := r } cid).1 with _ | w
      · rw [hr] at h
        rw [← h] at hok
        simp at hok
      · rw [hr] at h
        rw [← h]
        constructor
        · unfold Field.add_card
          rw [getP_setP_self]
          apply add_card_mzone_get
          rw [getP_setP_mzone_length st.field tp c0.controller
            (remove_current st.field { c0 with reason := r } cid).2
            (remove_current_mzone_length st.field { c0 with reason := r } cid)]
          exact hlen0
        · simp only [DuelData.get_card, update_card_get, hg0, Option.map_some']
  refine ⟨ha, ?_⟩
  intro env st p cid k out hp hfind hsummon hret
  unfold summon at hsummon
  rw [hfind] at hsummon
  have hlen0 : 0 < ((st.field.getP p).mzone).length := by
    have := find_empty_slot_aux_lt _ 0 k hfind
    omega
  by_cases hps : (send_card_to st cid p LOCATION_MZONE 0).1 = true
  · rw [if_pos hps] at hsummon
    rw [← hsummon]
    show (((raise_event env _ EVENT_SUMMON_SUCCESS (some [cid]) p none).field.getP
      p).mzone).get? 0 = some (some cid)
    rw [raise_event_field]
    show ((((send_card_to st cid p LOCATION_MZONE 0).2.field).getP p).mzone).get? 0 =
      some (some cid)
    exact (ha st cid p 0 (send_card_to st cid p LOCATION_MZONE 0) hp hlen0 rfl hps).1
  · rw [if_neg hps] at hsummon
    rw [← hsummon] at hret
    simp at hret

/-- Witness for C10: in the occupied-slot state, find_empty_mzone_slot
reports slot 1, yet summoning card 1 writes slot 0, overwriting card 0;
send_card_to records sequence 0 on the moved card. -/
theorem send_card_to_seq_zero_witness :
    ((((send_card_to c10_st 1 0 LOCATION_MZONE 0).2.field.getP 0).mzone).get? 0 =
        some (some 1) ∧
      ((send_card_to c10_st 1 0 LOCATION_MZONE 0).2.get_card 1).map Card.sequence =
        some 0) ∧
    (((summon env0 c10_st 0 1).1.field.getP 0).mzone).get? 0 = some (some 1) :=
  ⟨send_card_to_seq_zero.1 c10_st 1 0 0 (send_card_to c10_st 1 0 LOCATION_MZONE 0)
      (by decide) (by decide) rfl (by decide),
    send_card_to_seq_zero.2 env0 c10_st 0 1 1 (summon env0 c10_st 0 1)
      (by decide) (by decide) rfl (by decide)⟩

/-! ### C9: the minimal uncompressed replay -/

set_option maxRecDepth 8000 in
/-- Claim C9: opening the minimal uncompressed replay (yrp1 header, flag 0,
players Alice and Bob, start_lp 8000, per player a main deck of the single
code 12345 and an empty extra deck) yields players [Alice, Bob], start_lp
8000 and main decks [12345]; the decompressor oracles are never consulted. -/
theorem replay_open_minimal (lzma lzma_native : List Nat → Option (List Nat)) :
    (replay_open lzma lzma_native c9_bytes).map
        (fun r => (r.players, r.params.start_lp, r.decks.map DeckArray.main)) =
      some ([utf16 "Alice", utf16 "Bob"], (8000 : Int), [[12345], [12345]]) := by rfl

/-- Witness for C9 with trivial decompressor oracles. -/
theorem replay_open_minimal_witness :
    (replay_open (fun _ => none) (fun _ => none) c9_bytes).map
        (fun r => (r.players, r.params.start_lp, r.decks.map DeckArray.main)) =
      some ([utf16 "Alice", utf16 "Bob"], (8000 : Int), [[12345], [12345]]) :=
  replay_open_minimal (fun _ => none) (fun _ => none)

end Osiris

